import Mathlib

/-!
Verification of the ApexValidator scene-validation engine.

The Python sources under `src/ApexValidator` are shallowly embedded here:
the Blender scene store (`bpy.data`) becomes an explicit `Store` value, each
validator's pure inspection function becomes a Lean function reading the
store, and each fix becomes a function from store to store.  Python floats
are modelled exactly in fixed point: a `Milli` is an integer number of
thousandths, so the float 1.0 is the `Milli` 1000 and the tolerance literal
0.001 the `Milli` 1.  The code's only float arithmetic is addition,
subtraction, `abs` and comparison against that tolerance, all of which are
exact in this representation.  Cross-entity references (parents, modifier targets,
materials in slots, driver targets) are modelled as names resolved by lookup
— matching the code's own discipline of re-validating `x.name in bpy.data.*`
before use — and mesh/curve data blocks are identified by numeric ids with a
user count computed as the number of referencing objects, as in Blender.
-/

set_option maxRecDepth 10000

namespace Apex

/-- A scalar in exact fixed point: an integer count of thousandths, so 1000
represents the float 1.0. -/
abbrev Milli := Int

/-- The float 1.0. -/
def oneF : Milli := 1000

/-- Tolerance used throughout `transforms.py`: the float literal 0.001. -/
def tol : Milli := 1

/-- A 3-component vector (scale or Euler rotation), components in `Milli`. -/
structure Vec3 where
  x : Milli
  y : Milli
  z : Milli
deriving DecidableEq, Repr

/-- The unit scale vector (1.0, 1.0, 1.0). -/
def vOne : Vec3 := ⟨oneF, oneF, oneF⟩

/-- The zero rotation vector. -/
def vZero : Vec3 := ⟨0, 0, 0⟩

/-- A uniform scale vector whose axes all hold the same value. -/
def uniform (k : Milli) : Vec3 := ⟨k, k, k⟩

/-- Object type tags (`obj.type` in bpy). -/
inductive ObjType where
  | MESH | CURVE | SURFACE | META | FONT | ARMATURE | EMPTY_OBJ | OTHER_OBJ
deriving DecidableEq, Repr

/-- Which `bpy.data` collection a data block lives in (dispatch used by
`fix_unapplied_scale` when removing orphaned blocks). -/
inductive DataKind where
  | meshKind | curveKind | metaKind | otherKind
deriving DecidableEq, Repr

/-- A transform baked into a data block by `transform_apply`.  The geometry
itself is opaque; we record the exact sequence of bake operations applied to
the block, which is what the instance-restoration claims are about. -/
inductive BakeOp where
  | scaleBy (v : Vec3)
  | rotateBy (v : Vec3)
deriving DecidableEq, Repr

/-- A shape key block (`key_blocks` entry): `vertex_group` is the referenced
vertex-group name, `""` meaning unset (falsy in Python). -/
structure ShapeKey where
  name : String
  vertex_group : String
deriving DecidableEq, Repr

/-- A mesh/curve data block.  `vertices` holds, per vertex, its vertex-group
memberships as (group index, weight) pairs, exactly what `rigging.py` reads. -/
structure MeshData where
  name : String
  kind : DataKind
  vertices : List (List (Nat × Milli))
  edges : Nat
  polygons : Nat
  uv_layers : Nat
  shape_keys : Option (List ShapeKey)
  baked : List BakeOp
deriving DecidableEq, Repr

/-- Shading node type tags used by `materials.py`. -/
inductive NodeType where
  | OUTPUT_MATERIAL | BSDF_PRINCIPLED | EMISSION | BSDF_DIFFUSE | BSDF_GLOSSY
  | TEX_IMAGE | TEX_ENVIRONMENT | BSDF_HAIR | BSDF_HAIR_PRINCIPLED
  | SUBSURFACE_SCATTERING | BSDF_ANISOTROPIC | BSDF_SHEEN | BSDF_TOON
  | OTHER_NODE
deriving DecidableEq, Repr

/-- A shading node; `image` names the referenced image for texture nodes. -/
structure Node where
  name : String
  ntype : NodeType
  image : Option String
deriving DecidableEq, Repr

/-- A node link.  The code only ever creates links into a named input socket
from a node's first output, so a link is (from node, to node, to socket). -/
structure NodeLink where
  from_node : String
  to_node : String
  to_socket : String
deriving DecidableEq, Repr

/-- A material node tree.  `next_node_id` numbers nodes created by
`tree.nodes.new` so that generated nodes get fresh names. -/
structure NodeTree where
  nodes : List Node
  links : List NodeLink
  next_node_id : Nat
deriving DecidableEq, Repr

/-- A material data block. -/
structure Material where
  name : String
  use_nodes : Bool
  node_tree : Option NodeTree
deriving DecidableEq, Repr

/-- An image data block. -/
structure Image where
  name : String
  source_file : Bool
  packed_file : Bool
  filepath : String
  has_data : Bool
  width : Nat
  height : Nat
deriving DecidableEq, Repr

/-- One driver-variable target; `id` names the referenced object (None when
unset). -/
structure DriverTarget where
  id : Option String
deriving DecidableEq, Repr

/-- A driver variable with its targets. -/
structure DriverVariable where
  name : String
  targets : List DriverTarget
deriving DecidableEq, Repr

/-- A driver: validity flag, whether its type is SCRIPTED, its expression,
and its variables (`driver.variables`; `variables` is a reserved word in
Lean, hence the field name `vars`). -/
structure Driver where
  is_valid : Bool
  scripted : Bool
  expression : String
  vars : List DriverVariable
deriving DecidableEq, Repr

/-- A driver F-curve (`animation_data.drivers` entry). -/
structure FCurve where
  data_path : String
  driver : Driver
deriving DecidableEq, Repr

/-- Modifier type tags checked by `modifiers.py`. -/
inductive ModType where
  | ARRAY | BOOLEAN | SHRINKWRAP | ARMATURE_MOD | SURFACE_DEFORM | DATA_TRANSFER
  | OTHER_MOD
deriving DecidableEq, Repr

/-- A modifier; the reference fields mirror the attributes the code reads
(`offset_object`, `object`, `target`, `is_bound`). -/
structure Modifier where
  name : String
  mtype : ModType
  use_object_offset : Bool
  offset_object : Option String
  object_ref : Option String
  target : Option String
  is_bound : Bool
deriving DecidableEq, Repr

/-- An object constraint (only its optional target is ever read). -/
structure Constraint where
  target : Option String
deriving DecidableEq, Repr

/-- Interaction mode of an object (`obj.mode`). -/
inductive Mode where
  | OBJECT_MODE | EDIT_MODE | WEIGHT_PAINT | OTHER_MODE
deriving DecidableEq, Repr

/-- A scene object.  `data` is the id of the shared data block (None for
data-less objects); `anim_drivers` is None when the object has no animation
data, otherwise the driver F-curve list; for ARMATURE-type objects `bones`
models `obj.data.bones` (the bone names read by `rigging.py`). -/
structure SceneObject where
  name : String
  otype : ObjType
  scale : Vec3
  rotation_euler : Vec3
  parent : Option String
  modifiers : List Modifier
  material_slots : List (Option String)
  data : Option Nat
  anim_drivers : Option (List FCurve)
  vertex_groups : List String
  constraints : List Constraint
  bones : List String
  mode : Mode
deriving DecidableEq, Repr

/-- The scene store (`bpy.data` together with the active view layer and a
modelled filesystem: the set of paths `os.path.exists` answers true for). -/
structure Store where
  objects : List SceneObject
  meshes : List (Nat × MeshData)
  next_data_id : Nat
  materials : List Material
  images : List Image
  fs_paths : List String
  view_layer : List String
deriving DecidableEq, Repr

/-- Look an object up by name (`bpy.data.objects[n]`). -/
def objLookup (s : Store) (n : String) : Option SceneObject :=
  s.objects.find? (fun o => o.name == n)

/-- `n in bpy.data.objects`. -/
def objExists (s : Store) (n : String) : Bool :=
  s.objects.any (fun o => o.name == n)

/-- Look a data block up by id. -/
def meshLookup (s : Store) (i : Nat) : Option MeshData :=
  (s.meshes.find? (fun e => e.1 == i)).map (·.2)

/-- `data.users`: the number of scene objects referencing the block. -/
def dataUsers (s : Store) (i : Nat) : Nat :=
  s.objects.countP (fun o => o.data == some i)

/-- Look a material up by name (`bpy.data.materials[n]`). -/
def matLookup (s : Store) (n : String) : Option Material :=
  s.materials.find? (fun m => m.name == n)

/-- `n in bpy.data.materials`. -/
def matExists (s : Store) (n : String) : Bool :=
  s.materials.any (fun m => m.name == n)

/-- Look an image up by name. -/
def imgLookup (s : Store) (n : String) : Option Image :=
  s.images.find? (fun i => i.name == n)

/-- `n in bpy.data.images`. -/
def imgExists (s : Store) (n : String) : Bool :=
  s.images.any (fun i => i.name == n)

/-- `os.path.exists` over the modelled filesystem. -/
def pathExists (s : Store) (p : String) : Bool :=
  s.fs_paths.any (fun q => q == p)

/-- Update the object of the given name in place. -/
def updObj (s : Store) (n : String) (f : SceneObject → SceneObject) : Store :=
  { s with objects := s.objects.map (fun o => if o.name == n then f o else o) }

/-- Update the data block of the given id in place. -/
def updMesh (s : Store) (i : Nat) (f : MeshData → MeshData) : Store :=
  { s with meshes := s.meshes.map (fun e => if e.1 == i then (e.1, f e.2) else e) }

/-- Update the material of the given name in place. -/
def updMat (s : Store) (n : String) (f : Material → Material) : Store :=
  { s with materials := s.materials.map (fun m => if m.name == n then f m else m) }

/-- Update the image of the given name in place. -/
def updImg (s : Store) (n : String) (f : Image → Image) : Store :=
  { s with images := s.images.map (fun i => if i.name == n then f i else i) }

/-- Python `str.strip()`: remove leading and trailing whitespace. -/
def pyStrip (s : String) : String :=
  ⟨((s.toList.dropWhile Char.isWhitespace).reverse.dropWhile Char.isWhitespace).reverse⟩

/-- Python `str.startswith(pre)`. -/
def pyStartsWith (s pre : String) : Bool :=
  pre.toList.isPrefixOf s.toList

/-- Python `list.index` (`chain.index(name)`): index of the first occurrence. -/
def pyIndex (l : List String) (a : String) : Nat :=
  l.findIdx (fun x => x == a)

/-- `SceneProcessor.is_excluded`: true when the name starts with any
non-empty pattern, the pattern being stripped of surrounding whitespace.

```python
for pattern in self.exclusion_patterns:
    if pattern and obj_name.startswith(pattern.strip()):
        return True
return False
``` -/
def is_excluded (patterns : List String) (obj_name : String) : Bool :=
  patterns.any (fun pattern => pattern ≠ "" && pyStartsWith obj_name (pyStrip pattern))

/-- An issue triple (issue type, message, severity) as returned by the
validator modules. -/
abbrev Issue := String × String × String

/-- Render a vector into a message. -/
def vecStr (v : Vec3) : String :=
  "(" ++ toString v.x ++ ", " ++ toString v.y ++ ", " ++ toString v.z ++ ")"

/-- Any axis of the scale deviates from 1.0 by more than the tolerance. -/
def scaleUnapplied (v : Vec3) : Bool :=
  |v.x - oneF| > tol || |v.y - oneF| > tol || |v.z - oneF| > tol

/-- The scale is non-uniform beyond the tolerance. -/
def scaleNonUniform (v : Vec3) : Bool :=
  |v.x - v.y| > tol || |v.x - v.z| > tol

/-- Any Euler axis of the rotation deviates from 0 by more than the
tolerance. -/
def rotationUnapplied (v : Vec3) : Bool :=
  |v.x| > tol || |v.y| > tol || |v.z| > tol

/-- `TransformValidator.validate_transforms`. -/
def validate_transforms (o : SceneObject) : List Issue :=
  (if scaleUnapplied o.scale then
    [("TRANSFORM", "Unapplied scale: " ++ vecStr o.scale, "WARNING")] else [])
  ++ (if scaleNonUniform o.scale then
    [("TRANSFORM", "Non-uniform scale: " ++ vecStr o.scale, "WARNING")] else [])
  ++ (if o.otype == ObjType.MESH && rotationUnapplied o.rotation_euler then
    [("TRANSFORM", "Unapplied rotation detected", "WARNING")] else [])

/-- `DataValidator.validate_object_data`: multi-user mesh data is a WARNING,
a shape key referencing a vertex group absent from the object is an ERROR. -/
def validate_object_data (s : Store) (o : SceneObject) : List Issue :=
  let usersIssue :=
    if o.otype == ObjType.MESH then
      match o.data with
      | some i =>
        if dataUsers s i > 1 then
          [("DATA", "Mesh data has " ++ toString (dataUsers s i) ++
            " users (linked duplicates)", "WARNING")]
        else []
      | none => []
    else []
  let skIssues :=
    if o.otype == ObjType.MESH then
      match o.data >>= meshLookup s with
      | some md =>
        match md.shape_keys with
        | some blocks =>
          blocks.flatMap (fun kb =>
            if kb.vertex_group ≠ "" && !(o.vertex_groups.contains kb.vertex_group) then
              [("DATA", "Shape key " ++ kb.name ++
                " references missing vertex group " ++ kb.vertex_group, "ERROR")]
            else [])
        | none => []
      | none => []
    else []
  usersIssue ++ skIssues

/-- Fuel-indexed walk of `CircularDependencyValidator.detect_parent_loops`.
The walk revisits at most one level per distinct existing object name, so
`objects.length + 1` fuel (supplied by the wrapper) never runs out. -/
def detect_parent_loops_aux (s : Store) : Nat → List String → List String → String →
    Option (List String)
  | 0, _, _, _ => none
  | Nat.succ fuel, visited, chain, n =>
    match objLookup s n with
    | none => none
    | some o =>
      if visited.contains n then
        some (chain.drop (pyIndex chain n) ++ [n])
      else
        match o.parent with
        | none => none
        | some p => detect_parent_loops_aux s fuel (n :: visited) (chain ++ [n]) p

/-- `CircularDependencyValidator.detect_parent_loops` from a start object. -/
def detect_parent_loops (s : Store) (n : String) : Option (List String) :=
  detect_parent_loops_aux s (s.objects.length + 1) [] [] n

/-- `CircularDependencyValidator.validate_dependencies`: parent loop plus
direct two-object constraint cycles. -/
def validate_dependencies (s : Store) (o : SceneObject) : List Issue :=
  let parentIssues :=
    match detect_parent_loops s o.name with
    | some loop =>
      [("CIRCULAR_DEPENDENCY", "Parent loop detected: " ++
        String.intercalate " → " loop, "ERROR")]
    | none => []
  let constraintIssues :=
    o.constraints.flatMap (fun c =>
      match c.target with
      | some t =>
        match objLookup s t with
        | some tobj =>
          tobj.constraints.flatMap (fun tc =>
            if tc.target == some o.name then
              [("CIRCULAR_DEPENDENCY", "Constraint loop: " ++ o.name ++
                " and " ++ t, "ERROR")]
            else [])
        | none => []
      | none => [])
  parentIssues ++ constraintIssues

/-- All external driver targets referenced by all driver variables of the
given F-curves, in iteration order. -/
def driverTargetsOf (fcs : List FCurve) : List String :=
  fcs.flatMap (fun fc => fc.driver.vars.flatMap (fun v => v.targets.filterMap (fun t => t.id)))

/-- Fuel-indexed walk of `DriverValidator.detect_driver_chain`.  Each branch
carries its own copy of the visited set and chain, mirroring
`visited.copy()` / `chain[:]` in the code. -/
def detect_driver_chain_aux (s : Store) : Nat → List String → List String → String →
    Option (List String)
  | 0, _, _, _ => none
  | Nat.succ fuel, visited, chain, n =>
    match objLookup s n with
    | none => none
    | some o =>
      if visited.contains n then
        -- `chain.index` inside try/except ValueError
        if chain.contains n then some (chain.drop (pyIndex chain n) ++ [n]) else none
      else
        match o.anim_drivers with
        | none => none
        | some fcs =>
          ((driverTargetsOf fcs).filter (fun t => t ≠ n)).findSome?
            (fun t => detect_driver_chain_aux s fuel (n :: visited) (chain ++ [n]) t)

/-- `DriverValidator.detect_driver_chain` from a start object. -/
def detect_driver_chain (s : Store) (n : String) : Option (List String) :=
  detect_driver_chain_aux s (s.objects.length + 1) [] [] n

/-- The innermost target check of `validate_drivers`: a self-referencing
target, else a null target, is one ERROR finding. -/
def driverTargetIssues (oname path vname : String) (t : DriverTarget) : List Issue :=
  if t.id == some oname then
    [("CIRCULAR_DRIVER", "Driver on " ++ path ++ " references itself", "ERROR")]
  else if t.id == none then
    [("MISSING_DRIVER_TARGET", "Driver on " ++ path ++
      " has missing target in variable " ++ vname, "ERROR")]
  else []

/-- The per-F-curve body of the `validate_drivers` loop.  Note the
`continue` after the invalid-driver finding: the per-variable checks and
the scripted-expression check run only for drivers whose validity flag is
true. -/
def driverFCurveIssues (oname : String) (fc : FCurve) : List Issue :=
  if !fc.driver.is_valid then
    [("INVALID_DRIVER", "Invalid driver on property " ++ fc.data_path, "ERROR")]
  else
    (fc.driver.vars.flatMap (fun v =>
      v.targets.flatMap (driverTargetIssues oname fc.data_path v.name)))
    ++ (if fc.driver.scripted && pyStrip fc.driver.expression == "" then
          [("INVALID_DRIVER", "Empty scripted expression on " ++ fc.data_path, "ERROR")]
        else [])

/-- `DriverValidator.validate_drivers`: the chain-detection finding, then
the per-F-curve findings. -/
def validate_drivers (s : Store) (o : SceneObject) : List Issue :=
  if !objExists s o.name then []
  else match o.anim_drivers with
  | none => []
  | some fcs =>
    let chainIssues :=
      match detect_driver_chain s o.name with
      | some chain =>
        [("DRIVER_CHAIN", "Driver chain loop detected: " ++
          String.intercalate " → " chain, "ERROR")]
      | none => []
    chainIssues ++ fcs.flatMap (driverFCurveIssues o.name)

/-- `ModifierValidator.validate_modifiers`. -/
def validate_modifiers (s : Store) (o : SceneObject) : List Issue :=
  o.modifiers.flatMap (fun m =>
    match m.mtype with
    | ModType.ARRAY =>
      if m.use_object_offset && m.offset_object == none then
        [("BROKEN_MODIFIER", "Array modifier " ++ m.name ++
          " has Object Offset enabled but no object set", "WARNING")]
      else []
    | ModType.BOOLEAN =>
      match m.object_ref with
      | none =>
        [("BROKEN_MODIFIER", "Boolean modifier " ++ m.name ++ " has no target object", "ERROR")]
      | some t =>
        if !objExists s t then
          [("BROKEN_MODIFIER", "Boolean modifier " ++ m.name ++
            " target object is missing", "ERROR")]
        else []
    | ModType.SHRINKWRAP =>
      if m.target == none then
        [("BROKEN_MODIFIER", "Shrinkwrap modifier " ++ m.name ++ " has no target", "ERROR")]
      else []
    | ModType.ARMATURE_MOD =>
      if m.object_ref == none then
        [("BROKEN_MODIFIER", "Armature modifier " ++ m.name ++
          " has no armature object", "ERROR")]
      else []
    | ModType.SURFACE_DEFORM =>
      if !m.is_bound then
        [("UNBOUND_MODIFIER", "Surface Deform modifier " ++ m.name ++
          " is not bound", "ERROR")]
      else
        match m.target with
        | some t =>
          match objLookup s t with
          | some tobj =>
            if tobj.mode ≠ Mode.OBJECT_MODE then
              [("UNSTABLE_MODIFIER", "Surface Deform target " ++ t ++
                " is in Edit Mode", "ERROR")]
            else []
          | none => []
        | none => []
    | ModType.DATA_TRANSFER =>
      if m.object_ref == none then
        [("BROKEN_MODIFIER", "Data Transfer modifier " ++ m.name ++
          " has no source object", "ERROR")]
      else []
    | ModType.OTHER_MOD => [])

/-- `GeometryValidator.validate_geometry` (mesh objects only). -/
def validate_geometry (s : Store) (o : SceneObject) : List Issue :=
  if o.otype ≠ ObjType.MESH then []
  else
    match o.data >>= meshLookup s with
    | none => [("GEOMETRY", "Mesh object has no data.", "ERROR")]
    | some mesh =>
      let nv := mesh.vertices.length
      (if mesh.polygons == 0 && nv != 0 then
        [("GEOMETRY", "Mesh has " ++ toString nv ++ " vertices but no faces", "WARNING")]
       else [])
      ++ (if mesh.edges == 0 && nv != 0 then
        [("GEOMETRY", "Mesh has " ++ toString nv ++ " loose vertices (no edges)", "WARNING")]
       else [])
      ++ (if mesh.uv_layers == 0 && mesh.polygons != 0 then
        [("GEOMETRY", "Mesh has no UV maps", "ERROR")]
       else [])
      ++ (if mesh.polygons > 100000 then
            [("GEOMETRY", "Very high poly count: " ++ toString mesh.polygons, "WARNING")]
          else if mesh.polygons > 50000 then
            [("GEOMETRY", "High poly count: " ++ toString mesh.polygons, "WARNING")]
          else [])

/-- Vertex count and total weight of the vertex group with the given index;
per vertex only the first membership entry for the group is counted,
mirroring the `break` in the inner loop of `rigging.py`. -/
def groupStats (mesh : MeshData) (idx : Nat) : Nat × Milli :=
  mesh.vertices.foldl (fun acc vert =>
    match vert.find? (fun g => g.1 == idx) with
    | some g => (acc.1 + 1, acc.2 + g.2)
    | none => acc) (0, 0)

/-- The bone-name set of the armature referenced by the first Armature
modifier with a set object, when that object resolves to an armature;
`none` when the guard `armature_mod and armature_mod.object.type ==
'ARMATURE'` fails. -/
def armatureBoneNames (s : Store) (o : SceneObject) : Option (List String) :=
  match o.modifiers.find? (fun m => m.mtype == ModType.ARMATURE_MOD && m.object_ref.isSome) with
  | some m =>
    match m.object_ref.bind (objLookup s) with
    | some arm => if arm.otype == ObjType.ARMATURE then some arm.bones else none
    | none => none
  | none => none

/-- `RiggingValidator.validate_vertex_groups`. -/
def validate_vertex_groups (s : Store) (o : SceneObject) : List Issue :=
  if o.otype != ObjType.MESH || o.vertex_groups.isEmpty then []
  else
    match o.data >>= meshLookup s with
    | none => []
    | some mesh =>
      let perGroup := (List.range o.vertex_groups.length).flatMap (fun idx =>
        let gname := o.vertex_groups.getD idx ""
        let st := groupStats mesh idx
        if st.1 == 0 then
          [("RIGGING", "Vertex group " ++ gname ++ " is empty (no vertices assigned)", "WARNING")]
        else if st.2 == 0 then
          [("RIGGING", "Vertex group " ++ gname ++ " has zero total weight", "WARNING")]
        else [])
      let orphanIssues :=
        match armatureBoneNames s o with
        | some bones =>
          o.vertex_groups.flatMap (fun g =>
            if !(bones.contains g) then
              [("RIGGING", "Orphaned vertex group " ++ g ++
                " (no matching bone in armature)", "WARNING")]
            else [])
        | none => []
      perGroup ++ orphanIssues

/-- Whether the Surface input of the named output node is linked. -/
def surfaceLinked (tree : NodeTree) (outName : String) : Bool :=
  tree.links.any (fun l => l.to_node == outName && l.to_socket == "Surface")

/-- `MaterialValidator.is_material_broken`, taking the material's name as
the reference held by a slot; a name absent from the store is the "material
has been deleted" case.  Returns (is_broken, message, severity). -/
def is_material_broken (s : Store) (mname : String) : Bool × String × String :=
  match matLookup s mname with
  | none => (true, "Material has been deleted.", "ERROR")
  | some mat =>
    if !mat.use_nodes then (true, "Material does not use Nodes (Legacy).", "ERROR")
    else match mat.node_tree with
    | none => (true, "Node tree is None or invalid.", "ERROR")
    | some tree =>
      match tree.nodes.find? (fun n => n.ntype == NodeType.OUTPUT_MATERIAL) with
      | none => (true, "Missing Material Output node.", "ERROR")
      | some out =>
        -- every OUTPUT_MATERIAL node has a Surface input in the host
        if !(surfaceLinked tree out.name) then
          (true, "Material Output surface is disconnected.", "WARNING")
        else (false, "", "")

/-- Python helper `is_power_of_2` in `materials.py`. -/
def isPow2 (n : Nat) : Bool := n != 0 && (n &&& (n - 1)) == 0

/-- Texture issues of one node (`MaterialValidator.validate_textures` loop
body). -/
def texture_node_issues (s : Store) (node : Node) : List (String × String) :=
  match node.ntype with
  | NodeType.TEX_IMAGE =>
    match node.image with
    | none => [("Image Texture node has no image assigned.", "WARNING")]
    | some iname =>
      if !imgExists s iname then
        [("Image Texture node has no image assigned.", "WARNING")]
      else
        match imgLookup s iname with
        | none => []
        | some img =>
          if !img.source_file then []
          else if img.packed_file then []
          else if img.filepath == "" then
            [("Image " ++ iname ++ " has no filepath.", "ERROR")]
          else if !pathExists s img.filepath then
            [("Missing texture file: " ++ iname, "ERROR")]
          else if !img.has_data then
            [("Image " ++ iname ++ " failed to load.", "ERROR")]
          else if img.width != 0 && img.height != 0 then
            (if img.width > 8192 || img.height > 8192 then
              [("Very large texture: " ++ iname, "WARNING")] else [])
            ++ (if !(isPow2 img.width) || !(isPow2 img.height) then
              [("Non-power-of-2 texture: " ++ iname, "WARNING")] else [])
          else []
  | NodeType.TEX_ENVIRONMENT =>
    match node.image with
    | none => [("Environment Texture node has no image assigned.", "WARNING")]
    | some iname =>
      match imgLookup s iname with
      | none => []
      | some img =>
        if !img.source_file then []
        else if img.packed_file then []
        else if !pathExists s img.filepath then
          [("Missing environment texture: " ++ iname, "ERROR")]
        else []
  | _ => []

/-- `MaterialValidator.validate_textures`. -/
def validate_textures (s : Store) (mat : Material) : List (String × String) :=
  if !mat.use_nodes then []
  else match mat.node_tree with
  | none => []
  | some tree => tree.nodes.flatMap (texture_node_issues s)

/-- The Cycles-only node set of `check_shader_compatibility`. -/
def cycles_only_nodes : List NodeType :=
  [NodeType.BSDF_HAIR, NodeType.BSDF_HAIR_PRINCIPLED, NodeType.SUBSURFACE_SCATTERING,
   NodeType.BSDF_ANISOTROPIC, NodeType.BSDF_SHEEN, NodeType.BSDF_TOON]

/-- The deprecated node set of `materials.py`. -/
def deprecated_types : List NodeType :=
  [NodeType.BSDF_DIFFUSE, NodeType.BSDF_GLOSSY, NodeType.EMISSION]

/-- `MaterialValidator.check_shader_compatibility`. -/
def check_shader_compatibility (mat : Material) : List (String × String) :=
  if !mat.use_nodes then []
  else match mat.node_tree with
  | none => []  -- the host guarantees a tree whenever use_nodes is set
  | some tree =>
    tree.nodes.flatMap (fun n =>
      (if cycles_only_nodes.contains n.ntype then
        [("Node " ++ n.name ++ " is Cycles-only, may not render in Eevee.", "WARNING")]
       else [])
      ++ (if deprecated_types.contains n.ntype then
        [("Deprecated node " ++ n.name ++ ". Use Principled BSDF instead", "WARNING")]
       else []))

/-- The `ValidationReport` record of `models.py`. -/
structure ValidationReport where
  object_name : String
  material_name : String
  issue_type : String
  message : String
  severity : String
deriving DecidableEq, Repr

/-- Wrap validator issues into reports, as the scan loop does. -/
def mkReports (oname mname : String) (issues : List Issue) : List ValidationReport :=
  issues.map (fun i => ⟨oname, mname, i.1, i.2.1, i.2.2⟩)

/-- Reports produced for one material slot in `SceneProcessor.scan`. -/
def slotReports (s : Store) (o : SceneObject) (slot : Option String) : List ValidationReport :=
  match slot with
  | none => [⟨o.name, "None", "EMPTY_SLOT", "Empty material slot found.", "WARNING"⟩]
  | some mname =>
    let broken := is_material_broken s mname
    (if broken.1 then [⟨o.name, mname, "BROKEN_SHADER", broken.2.1, broken.2.2⟩] else [])
    ++ (match matLookup s mname with
        | some mat =>
          (validate_textures s mat).map (fun i => ⟨o.name, mname, "TEXTURE", i.1, i.2⟩)
          ++ (check_shader_compatibility mat).map
              (fun i => ⟨o.name, mname, "SHADER_COMPAT", i.1, i.2⟩)
        | none => [])

/-- All reports `SceneProcessor.scan` appends for one (non-excluded)
object, in order. -/
def scanObj (s : Store) (o : SceneObject) : List ValidationReport :=
  mkReports o.name "N/A" (validate_transforms o)
  ++ mkReports o.name "N/A" (validate_object_data s o)
  ++ mkReports o.name "N/A" (validate_drivers s o)
  ++ mkReports o.name "N/A" (validate_modifiers s o)
  ++ mkReports o.name "N/A" (validate_geometry s o)
  ++ mkReports o.name "N/A" (validate_vertex_groups s o)
  ++ mkReports o.name "N/A" (validate_dependencies s o)
  ++ (if o.otype == ObjType.MESH || o.otype == ObjType.CURVE || o.otype == ObjType.SURFACE then
        (if o.material_slots.isEmpty then []
         else o.material_slots.flatMap (slotReports s o))
      else [])

/-- `SceneProcessor` state: the object set it was constructed over (objects
are weak references re-resolved by name, matching the code's
`obj.name in bpy.data.objects` re-validation), exclusion patterns, and the
report list. -/
structure SceneProcessor where
  objects : List String
  exclusion_patterns : List String
  reports : List ValidationReport
deriving DecidableEq, Repr

/-- One iteration of the scan loop, threading the store to make explicit
that no iteration writes it. -/
def scanStep (pats : List String) (acc : Store × List ValidationReport) (n : String) :
    Store × List ValidationReport :=
  match objLookup acc.1 n with
  | none => acc
  | some o =>
    if is_excluded pats o.name then acc
    else (acc.1, acc.2 ++ scanObj acc.1 o)

/-- `SceneProcessor.scan`: clears the report list, then walks the object
set appending findings for every non-excluded object. -/
def scan (p : SceneProcessor) (s : Store) : SceneProcessor × Store × List ValidationReport :=
  let r := p.objects.foldl (scanStep p.exclusion_patterns) (s, [])
  (⟨p.objects, p.exclusion_patterns, r.2⟩, r.1, r.2)

/-! ### Repair functions -/

/-- Object types `fix_unapplied_scale` is willing to process. -/
def geometryTypes : List ObjType :=
  [ObjType.MESH, ObjType.CURVE, ObjType.SURFACE, ObjType.META, ObjType.FONT]

/-- The early-return gate of `fix_unapplied_scale`: every axis strictly
within the tolerance (note: strictly, while the validators flag strictly
beyond it). -/
def scaleWithinTol (v : Vec3) : Bool :=
  |v.x - oneF| < tol && |v.y - oneF| < tol && |v.z - oneF| < tol

/-- The early-return gate of `fix_unapplied_rotation`. -/
def rotWithinTol (v : Vec3) : Bool :=
  |v.x| < tol && |v.y| < tol && |v.z| < tol

/-- One iteration of the per-instance loop of `fix_unapplied_scale`:
re-resolve the instance, skip it when gone or outside the view layer, make
its data single-user when shared, then apply the scale (bake it into the
data block and reset the object's scale to 1).  The accumulator carries the
store and `successfully_fixed`. -/
def applyScaleStep (acc : Store × List String) (iname : String) : Store × List String :=
  let s := acc.1
  match objLookup s iname with
  | none => acc
  | some inst =>
    if !(s.view_layer.contains iname) then acc
    else
      let s1 :=
        match inst.data with
        | some d =>
          if dataUsers s d > 1 then
            match meshLookup s d with
            | some md =>
              let newId := s.next_data_id
              let s' := { s with meshes := s.meshes ++ [(newId, md)],
                                 next_data_id := newId + 1 }
              updObj s' iname (fun o => { o with data := some newId })
            | none => s
          else s
        | none => s
      match objLookup s1 iname with
      | none => acc
      | some inst1 =>
        let s2 :=
          match inst1.data with
          | some d =>
            updMesh s1 d (fun md => { md with baked := md.baked ++ [BakeOp.scaleBy inst1.scale] })
          | none => s1
        (updObj s2 iname (fun o => { o with scale := vOne }), acc.2 ++ [iname])

/-- One iteration of the re-linking loop: point the instance back at the
master data block and record its old block when that left it without
users. -/
def relinkStep (master : Option Nat) (acc : Store × List Nat) (iname : String) :
    Store × List Nat :=
  let s := acc.1
  match objLookup s iname with
  | none => acc
  | some inst =>
    if inst.data == master then acc
    else
      let oldData := inst.data
      let s' := updObj s iname (fun o => { o with data := master })
      match oldData with
      | some od => if dataUsers s' od == 0 then (s', acc.2 ++ [od]) else (s', acc.2)
      | none => (s', acc.2)

/-- The `id_data in bpy.data.meshes / curves / metaballs` dispatch of the
orphan-removal loop. -/
def removableKind (k : DataKind) : Bool :=
  k == DataKind.meshKind || k == DataKind.curveKind || k == DataKind.metaKind

/-- Remove one orphaned data block, re-checking that it still has no
users. -/
def removeOrphanStep (s : Store) (d : Nat) : Store :=
  if dataUsers s d > 0 then s
  else
    match meshLookup s d with
    | some md =>
      if removableKind md.kind then
        { s with meshes := s.meshes.filter (fun e => e.1 != d) }
      else s
    | none => s

/-- The instance-restoration step of `fix_unapplied_scale`: re-link every
successfully fixed instance to the first one's data block and release the
data blocks that became unreferenced. -/
def restoreInstancing (s : Store) (fixed : List String) : Store :=
  match fixed with
  | [] => s
  | first :: rest =>
    let master := (objLookup s first).bind (fun o => o.data)
    let r := rest.foldl (relinkStep master) (s, [])
    r.2.foldl removeOrphanStep r.1

/-- `TransformValidator.fix_unapplied_scale`: apply the scale of every
instance sharing the object's data (each with unapplied scale), then
restore the shared-instance relationship.  Returns the count of instances
fixed. -/
def fix_unapplied_scale (s : Store) (n : String) : Store × Nat :=
  match objLookup s n with
  | none => (s, 0)
  | some obj =>
    if scaleWithinTol obj.scale then (s, 0)
    else if !(geometryTypes.contains obj.otype) then (s, 0)
    else
      let instances : List String :=
        match obj.data with
        | some d =>
          (s.objects.filter (fun o2 =>
            o2.otype == obj.otype && o2.data == some d && scaleUnapplied o2.scale)).map
            (fun o2 => o2.name)
        | none => [n]
      if instances.isEmpty then (s, 0)
      else
        let r := instances.foldl applyScaleStep (s, [])
        if r.2.length > 1 then (restoreInstancing r.1 r.2, r.2.length)
        else (r.1, r.2.length)

/-- `TransformValidator.fix_unapplied_rotation` (mesh objects only; makes
shared data single-user but, unlike the scale fix, never re-links it). -/
def fix_unapplied_rotation (s : Store) (n : String) : Store × Nat :=
  match objLookup s n with
  | none => (s, 0)
  | some obj =>
    if obj.otype != ObjType.MESH then (s, 0)
    else if rotWithinTol obj.rotation_euler then (s, 0)
    else if !(s.view_layer.contains n) then (s, 0)
    else
      let s1 :=
        match obj.data with
        | some d =>
          if dataUsers s d > 1 then
            match meshLookup s d with
            | some md =>
              let newId := s.next_data_id
              let s' := { s with meshes := s.meshes ++ [(newId, md)],
                                 next_data_id := newId + 1 }
              updObj s' n (fun o => { o with data := some newId })
            | none => s
          else s
        | none => s
      match objLookup s1 n with
      | none => (s1, 0)
      | some o1 =>
        let s2 :=
          match o1.data with
          | some d =>
            updMesh s1 d (fun md =>
              { md with baked := md.baked ++ [BakeOp.rotateBy o1.rotation_euler] })
          | none => s1
        (updObj s2 n (fun o => { o with rotation_euler := vZero }), 1)

/-- `MaterialValidator.fix_empty_slots`: rebuild the slot list without the
empty slots (also dropping references to deleted materials), counting only
the empty slots. -/
def fix_empty_slots (s : Store) (n : String) : Store × Nat :=
  match objLookup s n with
  | none => (s, 0)
  | some o =>
    if o.material_slots.isEmpty then (s, 0)
    else if o.data == none then (s, 0)
    else
      let fixed := o.material_slots.countP (fun sl => sl == none)
      if fixed == 0 then (s, 0)
      else
        let valid := (o.material_slots.filterMap id).filter (fun m => matExists s m)
        (updObj s n (fun ob => { ob with material_slots := valid.map some }), fixed)

/-- The removal predicate of `DriverValidator.fix_invalid_drivers`:
invalid, blank scripted expression, or (otherwise) any self or unset
variable target. -/
def invalidDriverPred (n : String) (fc : FCurve) : Bool :=
  if !fc.driver.is_valid then true
  else if fc.driver.scripted && pyStrip fc.driver.expression == "" then true
  else fc.driver.vars.any (fun v => v.targets.any (fun t => t.id == some n || t.id == none))

/-- `DriverValidator.fix_invalid_drivers`. -/
def fix_invalid_drivers (s : Store) (n : String) : Store × Nat :=
  match objLookup s n with
  | none => (s, 0)
  | some o =>
    match o.anim_drivers with
    | none => (s, 0)
    | some fcs =>
      if fcs.isEmpty then (s, 0)
      else
        let keep := fcs.filter (fun fc => !invalidDriverPred n fc)
        (updObj s n (fun ob => { ob with anim_drivers := some keep }),
         fcs.length - keep.length)

/-- The removal predicate of `DriverValidator.fix_driver_chains`: the
driver has a variable target whose name appears in the detected chain. -/
def chainDriverPred (chain : List String) (fc : FCurve) : Bool :=
  fc.driver.vars.any (fun v => v.targets.any (fun t =>
    match t.id with
    | some tn => chain.contains tn
    | none => false))

/-- `DriverValidator.fix_driver_chains`: removes the drivers on this object
referencing any name in its detected chain; true when any was removed. -/
def fix_driver_chains (s : Store) (n : String) : Store × Bool :=
  match detect_driver_chain s n with
  | none => (s, false)
  | some chain =>
    match objLookup s n with
    | none => (s, false)
    | some o =>
      match o.anim_drivers with
      | none => (s, false)
      | some fcs =>
        let keep := fcs.filter (fun fc => !chainDriverPred chain fc)
        (updObj s n (fun ob => { ob with anim_drivers := some keep }),
         fcs.length - keep.length > 0)

/-- The removal predicate of `ModifierValidator.fix_broken_modifiers`. -/
def modifierShouldRemove (s : Store) (m : Modifier) : Bool :=
  match m.mtype with
  | ModType.BOOLEAN =>
    match m.object_ref with
    | none => true
    | some t => !objExists s t
  | ModType.SHRINKWRAP => m.target == none
  | ModType.ARMATURE_MOD => m.object_ref == none
  | ModType.SURFACE_DEFORM => !m.is_bound
  | ModType.DATA_TRANSFER => m.object_ref == none
  | _ => false

/-- `ModifierValidator.fix_broken_modifiers`: disable the offending Array
toggle in place, remove the other broken modifiers; count both. -/
def fix_broken_modifiers (s : Store) (n : String) : Store × Nat :=
  match objLookup s n with
  | none => (s, 0)
  | some o =>
    let arrayBroken : Modifier → Bool := fun m =>
      m.mtype == ModType.ARRAY && m.use_object_offset && m.offset_object == none
    let arrayFixes := o.modifiers.countP arrayBroken
    let mods1 := o.modifiers.map (fun m =>
      if arrayBroken m then { m with use_object_offset := false } else m)
    let keep := mods1.filter (fun m => !modifierShouldRemove s m)
    (updObj s n (fun ob => { ob with modifiers := keep }),
     arrayFixes + (mods1.length - keep.length))

/-- `GeometryValidator.fix_missing_uvs`: create a UV layer (plus the host
Smart-UV-Project unwrap) for a mesh with faces and no UVs. -/
def fix_missing_uvs (s : Store) (n : String) : Store × Bool :=
  match objLookup s n with
  | none => (s, false)
  | some o =>
    if o.otype != ObjType.MESH then (s, false)
    else
      match o.data with
      | none => (s, false)
      | some d =>
        match meshLookup s d with
        | none => (s, false)
        | some mesh =>
          if mesh.uv_layers == 0 && mesh.polygons != 0 then
            if !(s.view_layer.contains n) then (s, false)
            else (updMesh s d (fun md => { md with uv_layers := md.uv_layers + 1 }), true)
          else (s, false)

/-- `CircularDependencyValidator.fix_parent_loop`: clear the parent when a
loop is detected through this object. -/
def fix_parent_loop (s : Store) (n : String) : Store × Bool :=
  match detect_parent_loops s n with
  | some _ => (updObj s n (fun o => { o with parent := none }), true)
  | none => (s, false)

/-- The host `vertex_group_normalize_all` operation: scale each vertex's
weights to sum to 1.0 (vertices with zero total weight are left alone).
This is a host-provided bulk operation, modelled here in the same fixed
point as every other scalar. -/
def normalizeVertex (vert : List (Nat × Milli)) : List (Nat × Milli) :=
  let total := (vert.map (fun g => g.2)).foldl (fun a b => a + b) 0
  if total = 0 then vert else vert.map (fun g => (g.1, g.2 * oneF / total))

/-- The count record returned by `RiggingValidator.fix_vertex_groups`. -/
structure RigFixCounts where
  empty_removed : Nat
  orphaned_removed : Nat
  normalized : Nat
deriving DecidableEq, Repr

/-- `RiggingValidator.fix_vertex_groups`: remove empty and orphaned vertex
groups, then run one weight-normalization pass over the remaining ones. -/
def fix_vertex_groups (s : Store) (n : String) : Store × RigFixCounts :=
  match objLookup s n with
  | none => (s, ⟨0, 0, 0⟩)
  | some o =>
    if o.otype != ObjType.MESH || o.vertex_groups.isEmpty then (s, ⟨0, 0, 0⟩)
    else
      match o.data with
      | none => (s, ⟨0, 0, 0⟩)
      | some d =>
        match meshLookup s d with
        | none => (s, ⟨0, 0, 0⟩)
        | some mesh =>
          let bone_names := (armatureBoneNames s o).getD []
          -- classification: 0 = empty, 1 = orphaned, 2 = kept
          let classify := (List.range o.vertex_groups.length).map (fun idx =>
            let st := groupStats mesh idx
            if st.1 == 0 || st.2 == 0 then (0 : Nat)
            else if !bone_names.isEmpty &&
                !(bone_names.contains (o.vertex_groups.getD idx "")) then 1
            else 2)
          let emptyCount := classify.countP (fun c => c == 0)
          let orphanCount := classify.countP (fun c => c == 1)
          let keep := ((List.range o.vertex_groups.length).filter
            (fun idx => classify.getD idx 2 == 2)).map (fun idx => o.vertex_groups.getD idx "")
          let s1 := updObj s n (fun ob => { ob with vertex_groups := keep })
          if !keep.isEmpty && s1.view_layer.contains n then
            (updMesh s1 d (fun md => { md with vertices := md.vertices.map normalizeVertex }),
             ⟨emptyCount, orphanCount, 1⟩)
          else (s1, ⟨emptyCount, orphanCount, 0⟩)

/-! ### Material repair functions -/

/-- `MaterialValidator.fix_material`: full rebuild to the minimal
output-plus-Principled-BSDF node graph. -/
def fix_material (s : Store) (mname : String) : Store :=
  updMat s mname (fun m =>
    { m with use_nodes := true,
             node_tree := some
               ⟨[⟨"Material Output", NodeType.OUTPUT_MATERIAL, none⟩,
                 ⟨"Principled BSDF", NodeType.BSDF_PRINCIPLED, none⟩],
                [⟨"Principled BSDF", "Material Output", "Surface"⟩], 0⟩ })

/-- The fixed name of the broken-marker material. -/
def markerName : String := "_BROKEN TO FIX"

/-- The node tree built for the marker material: a bright emission shader
linked to the output. -/
def markerTree : NodeTree :=
  ⟨[⟨"Material Output", NodeType.OUTPUT_MATERIAL, none⟩,
    ⟨"Emission", NodeType.EMISSION, none⟩],
   [⟨"Emission", "Material Output", "Surface"⟩], 0⟩

/-- `MaterialValidator.get_or_create_broken_marker_material`: reuse the
marker when the store has one under the fixed name, else create it. -/
def get_or_create_broken_marker_material (s : Store) : Store × String :=
  if matExists s markerName then (s, markerName)
  else ({ s with materials := s.materials ++ [⟨markerName, true, some markerTree⟩] },
        markerName)

/-- `MaterialValidator.mark_broken_material`: point the slot at the shared
marker material. -/
def mark_broken_material (s : Store) (n : String) (slot_index : Nat) : Store × Bool :=
  match objLookup s n with
  | none => (s, false)
  | some o =>
    if o.material_slots.length ≤ slot_index then (s, false)
    else
      let r := get_or_create_broken_marker_material s
      (updObj r.1 n (fun ob =>
        { ob with material_slots := ob.material_slots.set slot_index (some r.2) }), true)

/-- `MaterialValidator.fix_disconnected_output`: link an existing (or newly
created) Principled BSDF into the unlinked output socket. -/
def fix_disconnected_output (s : Store) (mname : String) : Store × Bool :=
  match matLookup s mname with
  | none => (s, false)
  | some mat =>
    if !mat.use_nodes then (s, false)
    else match mat.node_tree with
    | none => (s, false)
    | some tree =>
      match tree.nodes.find? (fun nd => nd.ntype == NodeType.OUTPUT_MATERIAL) with
      | none => (s, false)
      | some out =>
        if surfaceLinked tree out.name then (s, false)
        else
          let r :=
            match tree.nodes.find? (fun nd => nd.ntype == NodeType.BSDF_PRINCIPLED) with
            | some p => (tree, p.name)
            | none =>
              let nm := "Principled BSDF." ++ toString tree.next_node_id
              ({ tree with nodes := tree.nodes ++ [Node.mk nm NodeType.BSDF_PRINCIPLED none],
                           next_node_id := tree.next_node_id + 1 }, nm)
          let tree2 := { r.1 with links := r.1.links ++ [NodeLink.mk r.2 out.name "Surface"] }
          (updMat s mname (fun m => { m with node_tree := some tree2 }), true)

/-- Replace one deprecated node (by name) in the tree: snapshot its output
links, create a fresh Principled BSDF, rewire, then remove the node (which
also removes its links). -/
def replaceNodeStep (tree : NodeTree) (nodeName : String) : NodeTree × Nat :=
  match tree.nodes.find? (fun nd => nd.name == nodeName) with
  | none => (tree, 0)
  | some nd =>
    if !(deprecated_types.contains nd.ntype) then (tree, 0)
    else
      let output_links : List NodeLink := tree.links.filter (fun l => l.from_node == nd.name)
      let pname := "Principled BSDF." ++ toString tree.next_node_id
      let tree1 := { tree with
        nodes := tree.nodes ++ [Node.mk pname NodeType.BSDF_PRINCIPLED none],
        next_node_id := tree.next_node_id + 1 }
      let tree2 := { tree1 with
        links := tree1.links ++ output_links.map (fun (l : NodeLink) =>
          NodeLink.mk pname l.to_node l.to_socket) }
      let tree3 := { tree2 with
        nodes := tree2.nodes.filter (fun m => m.name != nd.name),
        links := tree2.links.filter (fun l => l.from_node != nd.name && l.to_node != nd.name) }
      (tree3, 1)

/-- `MaterialValidator.replace_deprecated_nodes`: iterate over a snapshot
of the node list, replacing every deprecated node. -/
def replace_deprecated_nodes (s : Store) (mname : String) : Store × Nat :=
  match matLookup s mname with
  | none => (s, 0)
  | some mat =>
    if !mat.use_nodes then (s, 0)
    else match mat.node_tree with
    | none => (s, 0)
    | some tree =>
      let snapshot := tree.nodes.map (fun nd => nd.name)
      let r := snapshot.foldl (fun acc nm =>
        let q := replaceNodeStep acc.1 nm
        (q.1, acc.2 + q.2)) (tree, 0)
      (updMat s mname (fun m => { m with node_tree := some r.1 }), r.2)

/-- Pack one texture node's image when it is an unpacked file-backed image
whose file exists. -/
def packImageStep (s : Store) (iname : Option String) : Store × Nat :=
  match iname with
  | none => (s, 0)
  | some im =>
    match imgLookup s im with
    | none => (s, 0)
    | some img =>
      if img.source_file && !img.packed_file && img.filepath != "" &&
          pathExists s img.filepath then
        (updImg s im (fun i => { i with packed_file := true }), 1)
      else (s, 0)

/-- `MaterialValidator.pack_external_textures`. -/
def pack_external_textures (s : Store) (mname : String) : Store × Nat :=
  match matLookup s mname with
  | none => (s, 0)
  | some mat =>
    if !mat.use_nodes then (s, 0)
    else match mat.node_tree with
    | none => (s, 0)
    | some tree =>
      tree.nodes.foldl (fun acc nd =>
        if nd.ntype == NodeType.TEX_IMAGE || nd.ntype == NodeType.TEX_ENVIRONMENT then
          let r := packImageStep acc.1 nd.image
          (r.1, acc.2 + r.2)
        else acc) (s, 0)

/-- Collect the broken materials referenced from one object's slots
(`SceneProcessor.fix_broken_shaders`, collection pass).  The Python code
accumulates into a set; we keep first-insertion order, which fixes the
set's unspecified iteration order without changing which materials are
fixed or the returned count. -/
def collectBrokenStep (s : Store) (acc : List String) (n : String) : List String :=
  match objLookup s n with
  | none => acc
  | some o =>
    if !(o.otype == ObjType.MESH || o.otype == ObjType.CURVE || o.otype == ObjType.SURFACE) then
      acc
    else
      o.material_slots.foldl (fun acc2 sl =>
        match sl with
        | none => acc2
        | some mname =>
          if matExists s mname then
            if (is_material_broken s mname).1 && !(acc2.contains mname) then acc2 ++ [mname]
            else acc2
          else acc2) acc

/-- `SceneProcessor.fix_broken_shaders`: rebuild every distinct broken
material used by the objects in scope (no exclusion filtering). -/
def fix_broken_shaders (p : SceneProcessor) (s : Store) : Store × Nat :=
  let toFix := p.objects.foldl (collectBrokenStep s) []
  toFix.foldl (fun acc mname =>
    if matExists acc.1 mname then (fix_material acc.1 mname, acc.2 + 1)
    else acc) (s, 0)

/-! ### The batched repair orchestrator (`SceneProcessor.auto_fix_all`) -/

/-- One entry of the execution trace of `auto_fix_all`: each event marks
one invocation of a repair function, in execution order, named after the
object (and material) it was invoked for. -/
inductive FixEvent where
  | scaleFix (obj : String)
  | rotationFix (obj : String)
  | emptySlotsFix (obj : String)
  | invalidDriversFix (obj : String)
  | driverChainsFix (obj : String)
  | modifiersFix (obj : String)
  | uvFix (obj : String)
  | parentLoopFix (obj : String)
  | riggingFix (obj : String)
  | materialSlotFix (obj : String) (mat : String)
deriving DecidableEq, Repr

/-- The event marks a transform-phase fix (scale or rotation apply). -/
def FixEvent.isTransformPhase : FixEvent → Bool
  | FixEvent.scaleFix _ => true
  | FixEvent.rotationFix _ => true
  | _ => false

/-- The event marks an object-level fix (phase 2). -/
def FixEvent.isObjectLevel (e : FixEvent) : Bool := !e.isTransformPhase

/-- The name of the object the fix was invoked for. -/
def FixEvent.objName : FixEvent → String
  | FixEvent.scaleFix o => o
  | FixEvent.rotationFix o => o
  | FixEvent.emptySlotsFix o => o
  | FixEvent.invalidDriversFix o => o
  | FixEvent.driverChainsFix o => o
  | FixEvent.modifiersFix o => o
  | FixEvent.uvFix o => o
  | FixEvent.parentLoopFix o => o
  | FixEvent.riggingFix o => o
  | FixEvent.materialSlotFix o _ => o

/-- The mutable state threaded through `auto_fix_all`: the store, the
per-category counters, the two dedup sets (`materials_processed`,
`objects_processed`) and the execution trace. -/
structure AutoFixState where
  store : Store
  materials_rebuilt : Nat
  disconnected_fixed : Nat
  deprecated_replaced : Nat
  drivers_fixed : Nat
  driver_chains_fixed : Nat
  modifiers_fixed : Nat
  empty_slots_fixed : Nat
  scales_applied : Nat
  rotations_applied : Nat
  textures_packed : Nat
  uvs_generated : Nat
  vertex_groups_cleaned : Nat
  weights_normalized : Nat
  parent_loops_fixed : Nat
  materials_processed : List String
  objects_processed : List String
  trace : List FixEvent
deriving DecidableEq, Repr

/-- Initial `auto_fix_all` state over a store: all counters zero, dedup
sets and trace empty. -/
def initAutoFix (s : Store) : AutoFixState :=
  ⟨s, 0, 0, 0, 0, 0, 0, 0, 0, 0, 0, 0, 0, 0, 0, [], [], []⟩

/-- After a successful scale fix, mark every object sharing the fixed
object's (current) data block as processed, so later batch entries skip
the instance group. -/
def markInstancesProcessed (st : AutoFixState) (n : String) : AutoFixState :=
  match objLookup st.store n with
  | some o =>
    (match o.data with
     | some d =>
       { st with objects_processed := st.objects_processed ++
          ((st.store.objects.filter (fun o2 =>
            o2.otype == o.otype && o2.data == some d)).map (fun o2 => o2.name)) }
     | none => st)
  | none => st

/-- The per-object body of the transform phase: the scale fix (skipped for
objects already marked processed via their instance group), marking all
objects sharing the fixed object's data as processed, then the rotation
fix. -/
def phase1Obj (st : AutoFixState) (n : String) : AutoFixState :=
  if !objExists st.store n then st
  else
    let st1 :=
      if st.objects_processed.contains n then st
      else
        let r := fix_unapplied_scale st.store n
        let st' := { st with store := r.1, scales_applied := st.scales_applied + r.2,
                             trace := st.trace ++ [FixEvent.scaleFix n] }
        if r.2 > 0 then markInstancesProcessed st' n else st'
    if !objExists st1.store n then st1
    else
      let r := fix_unapplied_rotation st1.store n
      { st1 with store := r.1, rotations_applied := st1.rotations_applied + r.2,
                 trace := st1.trace ++ [FixEvent.rotationFix n] }

/-- Phase 1 of `auto_fix_all`: collect the existing, non-excluded objects
and process them all.  The code runs this loop in batches of 15, but the
inter-batch view-layer refreshes, garbage collections and 50 ms pauses have
no observable effect on the store and the per-object order is that of the
collected list, so folding over the batches of the list is the same fold as
folding over the list itself. -/
def phase1 (p : SceneProcessor) (st : AutoFixState) : AutoFixState :=
  let transform_objects := p.objects.filter (fun n =>
    objExists st.store n && !(is_excluded p.exclusion_patterns n))
  transform_objects.foldl phase1Obj st

/-- The per-slot material remediation of phase 2: skip empty slots, deleted
materials, the marker material itself and materials already processed in
this call; otherwise mark ERROR-broken materials with the shared marker,
reconnect WARNING-broken (disconnected) outputs, and always run
deprecated-node replacement and texture packing on the original material. -/
def phase2MaterialSlot (n : String) (st : AutoFixState) (idxSlot : Nat × Option String) :
    AutoFixState :=
  match idxSlot.2 with
  | none => st
  | some mname =>
    if !matExists st.store mname then st
    else if mname == markerName then st
    else if st.materials_processed.contains mname then st
    else
      let st := { st with materials_processed := st.materials_processed ++ [mname],
                          trace := st.trace ++ [FixEvent.materialSlotFix n mname] }
      let broken := is_material_broken st.store mname
      let st1 :=
        if broken.1 && broken.2.2 == "ERROR" then
          let r := mark_broken_material st.store n idxSlot.1
          { st with store := r.1,
                    materials_rebuilt := st.materials_rebuilt + (if r.2 then 1 else 0) }
        else if broken.1 && broken.2.2 == "WARNING" then
          let r := fix_disconnected_output st.store mname
          { st with store := r.1,
                    disconnected_fixed := st.disconnected_fixed + (if r.2 then 1 else 0) }
        else st
      let r2 := replace_deprecated_nodes st1.store mname
      let st2 := { st1 with store := r2.1,
                            deprecated_replaced := st1.deprecated_replaced + r2.2 }
      let r3 := pack_external_textures st2.store mname
      { st2 with store := r3.1, textures_packed := st2.textures_packed + r3.2 }

/-- The per-object body of phase 2, in the code's fixed order: empty-slot
cleanup, invalid-driver cleanup, driver-chain cleanup, modifier cleanup, UV
generation, parent-loop cleanup, vertex-group cleanup, then the per-slot
material remediation over a fresh snapshot of the slot list. -/
def phase2Obj (pats : List String) (st : AutoFixState) (n : String) : AutoFixState :=
  if !objExists st.store n then st
  else if is_excluded pats n then st
  else
    let r1 := fix_empty_slots st.store n
    let st := { st with store := r1.1, empty_slots_fixed := st.empty_slots_fixed + r1.2,
                        trace := st.trace ++ [FixEvent.emptySlotsFix n] }
    let r2 := fix_invalid_drivers st.store n
    let st := { st with store := r2.1, drivers_fixed := st.drivers_fixed + r2.2,
                        trace := st.trace ++ [FixEvent.invalidDriversFix n] }
    let r3 := fix_driver_chains st.store n
    let st := { st with store := r3.1,
                        driver_chains_fixed := st.driver_chains_fixed + (if r3.2 then 1 else 0),
                        trace := st.trace ++ [FixEvent.driverChainsFix n] }
    let r4 := fix_broken_modifiers st.store n
    let st := { st with store := r4.1, modifiers_fixed := st.modifiers_fixed + r4.2,
                        trace := st.trace ++ [FixEvent.modifiersFix n] }
    let r5 := fix_missing_uvs st.store n
    let st := { st with store := r5.1,
                        uvs_generated := st.uvs_generated + (if r5.2 then 1 else 0),
                        trace := st.trace ++ [FixEvent.uvFix n] }
    let r6 := fix_parent_loop st.store n
    let st := { st with store := r6.1,
                        parent_loops_fixed := st.parent_loops_fixed + (if r6.2 then 1 else 0),
                        trace := st.trace ++ [FixEvent.parentLoopFix n] }
    let r7 := fix_vertex_groups st.store n
    let st := { st with store := r7.1,
                        vertex_groups_cleaned := st.vertex_groups_cleaned +
                          (r7.2.empty_removed + r7.2.orphaned_removed),
                        weights_normalized := st.weights_normalized +
                          (if r7.2.normalized > 0 then 1 else 0),
                        trace := st.trace ++ [FixEvent.riggingFix n] }
    match objLookup st.store n with
    | none => st
    | some o =>
      if !(o.otype == ObjType.MESH || o.otype == ObjType.CURVE ||
           o.otype == ObjType.SURFACE) then st
      else o.material_slots.enum.foldl (phase2MaterialSlot n) st

/-- The per-call fix-count map returned by `auto_fix_all`. -/
structure FixCounts where
  materials_rebuilt : Nat
  disconnected_fixed : Nat
  deprecated_replaced : Nat
  drivers_fixed : Nat
  driver_chains_fixed : Nat
  modifiers_fixed : Nat
  empty_slots_fixed : Nat
  scales_applied : Nat
  rotations_applied : Nat
  textures_packed : Nat
  uvs_generated : Nat
  vertex_groups_cleaned : Nat
  weights_normalized : Nat
  parent_loops_fixed : Nat
deriving DecidableEq, Repr

/-- `SceneProcessor.auto_fix_all`: the transform phase over the whole
object set, then the object-level phase, returning the final store, the
count map and the execution trace. -/
def auto_fix_all (p : SceneProcessor) (s : Store) : Store × FixCounts × List FixEvent :=
  let st1 := phase1 p (initAutoFix s)
  let st2 := p.objects.foldl (phase2Obj p.exclusion_patterns) st1
  (st2.store,
   ⟨st2.materials_rebuilt, st2.disconnected_fixed, st2.deprecated_replaced,
    st2.drivers_fixed, st2.driver_chains_fixed, st2.modifiers_fixed,
    st2.empty_slots_fixed, st2.scales_applied, st2.rotations_applied,
    st2.textures_packed, st2.uvs_generated, st2.vertex_groups_cleaned,
    st2.weights_normalized, st2.parent_loops_fixed⟩,
   st2.trace)

/-! ### Concrete scenario stores used by the claims -/

/-- An object with the given name and type and all other fields neutral:
unit scale, zero rotation, no parent, no modifiers, slots, data, drivers,
vertex groups, constraints or bones, object mode. -/
def mkObj (n : String) (t : ObjType) : SceneObject :=
  ⟨n, t, vOne, vZero, none, [], [], none, none, [], [], [], Mode.OBJECT_MODE⟩

/-- A quiet mesh data block: no vertices, edges or polygons, one UV layer,
no shape keys, nothing baked. -/
def mkMesh (nm : String) : MeshData :=
  ⟨nm, DataKind.meshKind, [], 0, 0, 1, none, []⟩

/-- Two mesh objects sharing one data block, both with scale (2.0, 2.0,
2.0), both in the view layer (the C1 scenario). -/
def sharedScaleStore (n1 n2 : String) (m : MeshData) : Store :=
  ⟨[{ mkObj n1 ObjType.MESH with scale := uniform 2000, data := some 0 },
    { mkObj n2 ObjType.MESH with scale := uniform 2000, data := some 0 }],
   [(0, m)], 1, [], [], [], [n1, n2]⟩

/-- Three objects forming the parent cycle a → b → c → a (the C2
scenario). -/
def cycleStore (a b c : String) : Store :=
  ⟨[{ mkObj a ObjType.EMPTY_OBJ with parent := some b },
    { mkObj b ObjType.EMPTY_OBJ with parent := some c },
    { mkObj c ObjType.EMPTY_OBJ with parent := some a }],
   [], 0, [], [], [], []⟩

/-- A driver F-curve whose driver has its validity flag cleared and a
single variable targeting the named object. -/
def invalidSelfFCurve (a : String) : FCurve :=
  ⟨"location", ⟨false, false, "", [⟨"var", [⟨some a⟩]⟩]⟩⟩

/-- An object named `a` carrying an invalid driver whose variable targets
the object itself. -/
def selfTargetInvalidObj (a : String) : SceneObject :=
  { mkObj a ObjType.EMPTY_OBJ with anim_drivers := some [invalidSelfFCurve a] }

/-- A store with one object carrying an invalid driver whose variable
targets the object itself. -/
def invalidDriverStore (a : String) : Store :=
  ⟨[selfTargetInvalidObj a], [], 0, [], [], [], []⟩

/-- Driver F-curves mixing every defect of `validate_drivers`: an invalid
driver with a self-target, and a valid scripted driver with a blank
expression, one self-target and one unset target. -/
def mixedDriverFcs : List FCurve :=
  [invalidSelfFCurve "A",
   ⟨"scale", ⟨true, true, "  ", [⟨"v", [⟨some "A"⟩, ⟨none⟩]⟩]⟩⟩]

/-- An object named A carrying the mixed driver list. -/
def mixedDriverObj : SceneObject :=
  { mkObj "A" ObjType.EMPTY_OBJ with anim_drivers := some mixedDriverFcs }

/-- A one-object store around `mixedDriverObj`. -/
def mixedDriverStore : Store :=
  ⟨[mixedDriverObj], [], 0, [], [], [], []⟩

/-- A store with a single mesh object whose scale (2.0, 2.0, 2.0) would
produce findings in an unfiltered scan. -/
def cubeStore : Store :=
  ⟨[{ mkObj "Cube" ObjType.MESH with scale := uniform 2000, data := some 0 }],
   [(0, mkMesh "CubeMesh")], 1, [], [], [], ["Cube"]⟩

/-- A valid driver F-curve on the given data path with one variable
targeting the named object. -/
def targetFCurve (path t : String) : FCurve :=
  ⟨path, ⟨true, false, "x", [⟨"v", [⟨some t⟩]⟩]⟩⟩

/-- The C5 scenario: a's drivers target b (and, in a second driver, the
bystander c); b's driver targets a; c has no animation data. -/
def chainStore (a b c : String) : Store :=
  ⟨[{ mkObj a ObjType.EMPTY_OBJ with
        anim_drivers := some [targetFCurve "location" b, targetFCurve "rotation" c] },
    { mkObj b ObjType.EMPTY_OBJ with
        anim_drivers := some [targetFCurve "location" a] },
    mkObj c ObjType.EMPTY_OBJ],
   [], 0, [], [], [], []⟩

/-- The C3 counterexample store: a non-excluded object and the excluded
object WGT-ctrl share one mesh data block, both with scale (2.0, 2.0,
2.0). -/
def exclusionScaleStore : Store :=
  ⟨[{ mkObj "Body" ObjType.MESH with scale := uniform 2000, data := some 0 },
    { mkObj "WGT-ctrl" ObjType.MESH with scale := uniform 2000, data := some 0 }],
   [(0, mkMesh "SharedMesh")], 1, [], [], [], ["Body", "WGT-ctrl"]⟩

/-- The processor for the C3 counterexample: both objects in scope, the
default exclusion pattern list. -/
def exclusionProcessor : SceneProcessor := ⟨["Body", "WGT-ctrl"], ["WGT-"], []⟩

/-- A legacy (non-node) material: `is_material_broken` reports it as ERROR. -/
def brokenMat (nm : String) : Material := ⟨nm, false, none⟩

/-- The C7 scenario: two mesh objects, each with one slot holding its own
ERROR-broken material. -/
def markerScenarioStore : Store :=
  ⟨[{ mkObj "ObjA" ObjType.MESH with material_slots := [some "MatA"], data := some 0 },
    { mkObj "ObjB" ObjType.MESH with material_slots := [some "MatB"], data := some 1 }],
   [(0, mkMesh "MeshA"), (1, mkMesh "MeshB")], 2,
   [brokenMat "MatA", brokenMat "MatB"], [], [], ["ObjA", "ObjB"]⟩

/-- The processor for the C7 scenario: both objects in scope, no
exclusions. -/
def markerProcessor : SceneProcessor := ⟨["ObjA", "ObjB"], [], []⟩

/-! ## Helper lemmas -/

/-- One scan iteration never writes the store. -/
theorem scanStep_fst (pats : List String) (acc : Store × List ValidationReport) (n : String) :
    (scanStep pats acc n).1 = acc.1 := by
  unfold scanStep
  cases objLookup acc.1 n with
  | none => rfl
  | some o => dsimp only; split <;> rfl

/-- The whole scan loop never writes the store. -/
theorem scan_foldl_fst (pats : List String) :
    ∀ (l : List String) (acc : Store × List ValidationReport),
      (l.foldl (scanStep pats) acc).1 = acc.1 := by
  intro l
  induction l with
  | nil => intro acc; rfl
  | cons x xs ih =>
    intro acc
    rw [List.foldl_cons, ih, scanStep_fst]

/-- When every name is excluded, the scan loop is the identity. -/
theorem excluded_all_foldl (pats : List String) (hall : ∀ n, is_excluded pats n = true) :
    ∀ (l : List String) (acc : Store × List ValidationReport),
      l.foldl (scanStep pats) acc = acc := by
  intro l
  induction l with
  | nil => intro acc; rfl
  | cons x xs ih =>
    intro acc
    rw [List.foldl_cons]
    have hx : scanStep pats acc x = acc := by
      unfold scanStep
      cases objLookup acc.1 x with
      | none => rfl
      | some o => simp [hall o.name]
    rw [hx, ih]

/-- Every report the scan produces for an object carries that object's
name. -/
theorem scanObj_names (s : Store) (o : SceneObject) :
    (scanObj s o).all (fun r => r.object_name == o.name) = true := by
  have hmk : ∀ (mn : String) (issues : List Issue),
      (mkReports o.name mn issues).all (fun r => r.object_name == o.name) = true := by
    intro mn issues
    rw [List.all_eq_true]
    intro r hr
    obtain ⟨i, hi, rfl⟩ := List.mem_map.mp hr
    exact beq_self_eq_true o.name
  have hslot : ∀ sl, (slotReports s o sl).all (fun r => r.object_name == o.name) = true := by
    intro sl
    unfold slotReports
    cases sl with
    | none => simp
    | some mname =>
      simp only [List.all_append, Bool.and_eq_true]
      constructor
      · split <;> simp
      · cases matLookup s mname with
        | none => simp
        | some mat =>
          rw [List.all_append, Bool.and_eq_true]
          constructor <;>
            (rw [List.all_eq_true]
             intro r hr
             obtain ⟨i, hi, rfl⟩ := List.mem_map.mp hr
             exact beq_self_eq_true o.name)
  simp only [scanObj, List.all_append, Bool.and_eq_true]
  refine ⟨⟨⟨⟨⟨⟨⟨hmk _ _, hmk _ _⟩, hmk _ _⟩, hmk _ _⟩, hmk _ _⟩, hmk _ _⟩, hmk _ _⟩, ?_⟩
  split
  · split
    · simp
    · rw [List.all_eq_true]
      intro r hr
      rw [List.mem_flatMap] at hr
      obtain ⟨sl, _, hmem⟩ := hr
      have := hslot sl
      rw [List.all_eq_true] at this
      exact this r hmem
  · simp

/-- Every report the scan loop accumulates names a non-excluded object. -/
theorem scan_foldl_not_excluded (pats : List String) :
    ∀ (l : List String) (acc : Store × List ValidationReport),
      acc.2.all (fun r => !is_excluded pats r.object_name) = true →
      (l.foldl (scanStep pats) acc).2.all
        (fun r => !is_excluded pats r.object_name) = true := by
  intro l
  induction l with
  | nil => intro acc h; exact h
  | cons x xs ih =>
    intro acc h
    rw [List.foldl_cons]
    apply ih
    unfold scanStep
    cases hx : objLookup acc.1 x with
    | none => exact h
    | some o =>
      dsimp only
      split
      · exact h
      next hexc =>
        rw [List.all_append, Bool.and_eq_true]
        refine ⟨h, ?_⟩
        rw [List.all_eq_true]
        intro r hr
        have hn := scanObj_names acc.1 o
        rw [List.all_eq_true] at hn
        rw [eq_of_beq (hn r hr)]
        simp [Bool.not_eq_true'] at hexc ⊢
        exact hexc

/-- Marking an instance group as processed does not touch the trace. -/
theorem markInstancesProcessed_trace (st : AutoFixState) (n : String) :
    (markInstancesProcessed st n).trace = st.trace := by
  unfold markInstancesProcessed
  repeat' (first | split | dsimp only)

/-- Every event the scale/rotation body appends is a transform-phase event
for the processed object. -/
theorem phase1Obj_trace (st : AutoFixState) (n : String) :
    ∃ u, (phase1Obj st n).trace = st.trace ++ u ∧
      u.all (fun e => e.isTransformPhase && (e.objName == n)) = true := by
  unfold phase1Obj
  repeat' (first | split | dsimp only)
  · exact ⟨[], by simp, rfl⟩
  · exact ⟨[], by simp, rfl⟩
  · exact ⟨[FixEvent.rotationFix n], by simp,
      by simp [FixEvent.isTransformPhase, FixEvent.objName]⟩
  · exact ⟨[FixEvent.scaleFix n], by simp [markInstancesProcessed_trace],
      by simp [FixEvent.isTransformPhase, FixEvent.objName]⟩
  · exact ⟨[FixEvent.scaleFix n, FixEvent.rotationFix n],
      by simp [markInstancesProcessed_trace],
      by simp [FixEvent.isTransformPhase, FixEvent.objName]⟩
  · exact ⟨[FixEvent.scaleFix n], by simp,
      by simp [FixEvent.isTransformPhase, FixEvent.objName]⟩
  · exact ⟨[FixEvent.scaleFix n, FixEvent.rotationFix n], by simp,
      by simp [FixEvent.isTransformPhase, FixEvent.objName]⟩

/-- Every event the per-slot material body appends is an object-level event
for the processed object. -/
theorem phase2MaterialSlot_trace (n : String) (st : AutoFixState) (z : Nat × Option String) :
    ∃ u, (phase2MaterialSlot n st z).trace = st.trace ++ u ∧
      u.all (fun e => e.isObjectLevel && (e.objName == n)) = true := by
  unfold phase2MaterialSlot
  repeat' (first | split | dsimp only)
  all_goals
    first
      | exact ⟨[], (List.append_nil _).symm, rfl⟩
      | (refine ⟨_, rfl, ?_⟩
         simp [FixEvent.isObjectLevel, FixEvent.isTransformPhase, FixEvent.objName])

/-- A fold of steps that only append satisfying events itself only appends
satisfying events. -/
theorem trace_extend_foldl {α : Type} (P : FixEvent → Bool)
    (step : AutoFixState → α → AutoFixState) :
    ∀ (l : List α),
      (∀ st x, x ∈ l → ∃ u, (step st x).trace = st.trace ++ u ∧ u.all P = true) →
      ∀ st, ∃ u, (l.foldl step st).trace = st.trace ++ u ∧ u.all P = true := by
  intro l
  induction l with
  | nil => intro _ st; exact ⟨[], (List.append_nil _).symm, rfl⟩
  | cons x xs ih =>
    intro hstep st
    obtain ⟨u1, h1, hp1⟩ := hstep st x (List.mem_cons_self x xs)
    obtain ⟨u2, h2, hp2⟩ :=
      ih (fun st' y hy => hstep st' y (List.mem_cons_of_mem x hy)) (step st x)
    refine ⟨u1 ++ u2, ?_, ?_⟩
    · rw [List.foldl_cons, h2, h1, List.append_assoc]
    · rw [List.all_append, hp1, hp2]; rfl

/-- Every event the phase-2 body appends is an object-level event for the
processed object. -/
theorem phase2Obj_trace (pats : List String) (st : AutoFixState) (n : String) :
    ∃ u, (phase2Obj pats st n).trace = st.trace ++ u ∧
      u.all (fun e => e.isObjectLevel && (e.objName == n)) = true := by
  unfold phase2Obj
  split
  · exact ⟨[], (List.append_nil _).symm, rfl⟩
  split
  · exact ⟨[], (List.append_nil _).symm, rfl⟩
  dsimp only
  split
  · exact ⟨[FixEvent.emptySlotsFix n, FixEvent.invalidDriversFix n,
      FixEvent.driverChainsFix n, FixEvent.modifiersFix n, FixEvent.uvFix n,
      FixEvent.parentLoopFix n, FixEvent.riggingFix n], by simp,
      by simp [FixEvent.isObjectLevel, FixEvent.isTransformPhase, FixEvent.objName]⟩
  · next o _ =>
    split
    · exact ⟨[FixEvent.emptySlotsFix n, FixEvent.invalidDriversFix n,
        FixEvent.driverChainsFix n, FixEvent.modifiersFix n, FixEvent.uvFix n,
        FixEvent.parentLoopFix n, FixEvent.riggingFix n], by simp,
        by simp [FixEvent.isObjectLevel, FixEvent.isTransformPhase, FixEvent.objName]⟩
    · obtain ⟨u, hu, hp⟩ := trace_extend_foldl
        (fun e => e.isObjectLevel && (e.objName == n)) (phase2MaterialSlot n)
        o.material_slots.enum (fun st' z _ => phase2MaterialSlot_trace n st' z) _
      refine ⟨[FixEvent.emptySlotsFix n, FixEvent.invalidDriversFix n,
        FixEvent.driverChainsFix n, FixEvent.modifiersFix n, FixEvent.uvFix n,
        FixEvent.parentLoopFix n, FixEvent.riggingFix n] ++ u, ?_, ?_⟩
      · rw [hu]
        simp
      · rw [List.all_append, hp]
        simp [FixEvent.isObjectLevel, FixEvent.isTransformPhase, FixEvent.objName]

/-- A pointwise implication between event predicates lifts to `all`. -/
theorem all_imp {l : List FixEvent} {p q : FixEvent → Bool}
    (h : l.all p = true) (himp : ∀ e, p e = true → q e = true) : l.all q = true := by
  rw [List.all_eq_true] at h ⊢
  exact fun e he => himp e (h e he)

/-- The phase-2 body appends no event at all for an excluded object, and
only events for the (non-excluded) object otherwise. -/
theorem phase2Obj_trace_excl (pats : List String) (st : AutoFixState) (n : String) :
    ∃ u, (phase2Obj pats st n).trace = st.trace ++ u ∧
      u.all (fun e => !is_excluded pats e.objName) = true := by
  by_cases hex : is_excluded pats n = true
  · refine ⟨[], ?_, rfl⟩
    unfold phase2Obj
    rw [hex]
    simp
  · obtain ⟨u, hu, hp⟩ := phase2Obj_trace pats st n
    refine ⟨u, hu, all_imp hp ?_⟩
    intro e he
    rw [Bool.and_eq_true] at he
    rw [eq_of_beq he.2]
    cases hq : is_excluded pats n
    · rfl
    · exact absurd hq hex

/-- Summing the indicator of a predicate over a list counts the predicate. -/
theorem sum_map_ite_eq_countP {α : Type} (p : α → Bool) (l : List α) :
    (l.map (fun x => if p x = true then 1 else 0)).sum = l.countP p := by
  induction l with
  | nil => rfl
  | cons x xs ih =>
    simp only [List.map_cons, List.sum_cons, List.countP_cons, ih]
    split <;> omega

/-- The per-target check yields exactly one CIRCULAR_DRIVER finding for a
self target. -/
theorem driverTargetIssues_circ (oname path vname : String) (t : DriverTarget) :
    (driverTargetIssues oname path vname t).countP (fun i => i.1 == "CIRCULAR_DRIVER") =
      if t.id == some oname then 1 else 0 := by
  unfold driverTargetIssues
  split
  · simp
  · split <;> simp

/-- The per-target check yields exactly one MISSING_DRIVER_TARGET finding
for an unset target. -/
theorem driverTargetIssues_missing (oname path vname : String) (t : DriverTarget) :
    (driverTargetIssues oname path vname t).countP
        (fun i => i.1 == "MISSING_DRIVER_TARGET") =
      if t.id == none then 1 else 0 := by
  unfold driverTargetIssues
  split
  · next h => simp [show t.id ≠ none from fun hn => by simp [hn] at h]
  · split <;> simp_all

/-- Per F-curve: one CIRCULAR_DRIVER finding per self target, and none at
all when the driver's validity flag is cleared. -/
theorem driverFCurveIssues_circ (oname : String) (fc : FCurve) :
    (driverFCurveIssues oname fc).countP (fun i => i.1 == "CIRCULAR_DRIVER") =
      if fc.driver.is_valid then
        (fc.driver.vars.map (fun v =>
          v.targets.countP (fun t => t.id == some oname))).sum
      else 0 := by
  unfold driverFCurveIssues
  split
  · next h => simp_all
  · next h =>
    rw [List.countP_append, List.countP_flatMap]
    have h2 : ∀ v : DriverVariable,
        List.countP (fun i => i.1 == "CIRCULAR_DRIVER")
          (v.targets.flatMap (driverTargetIssues oname fc.data_path v.name)) =
        v.targets.countP (fun t => t.id == some oname) := by
      intro v
      rw [List.countP_flatMap]
      simp only [Function.comp_def, driverTargetIssues_circ]
      exact sum_map_ite_eq_countP _ _
    simp only [Function.comp_def, h2]
    have hv : fc.driver.is_valid = true := by
      revert h
      cases fc.driver.is_valid <;> simp
    rw [if_pos hv]
    split <;> simp

/-- Per F-curve: one MISSING_DRIVER_TARGET finding per unset target, and
none at all when the driver's validity flag is cleared. -/
theorem driverFCurveIssues_missing (oname : String) (fc : FCurve) :
    (driverFCurveIssues oname fc).countP (fun i => i.1 == "MISSING_DRIVER_TARGET") =
      if fc.driver.is_valid then
        (fc.driver.vars.map (fun v =>
          v.targets.countP (fun t => t.id == none))).sum
      else 0 := by
  unfold driverFCurveIssues
  split
  · next h => simp_all
  · next h =>
    rw [List.countP_append, List.countP_flatMap]
    have h2 : ∀ v : DriverVariable,
        List.countP (fun i => i.1 == "MISSING_DRIVER_TARGET")
          (v.targets.flatMap (driverTargetIssues oname fc.data_path v.name)) =
        v.targets.countP (fun t => t.id == none) := by
      intro v
      rw [List.countP_flatMap]
      simp only [Function.comp_def, driverTargetIssues_missing]
      exact sum_map_ite_eq_countP _ _
    simp only [Function.comp_def, h2]
    have hv : fc.driver.is_valid = true := by
      revert h
      cases fc.driver.is_valid <;> simp
    rw [if_pos hv]
    split <;> simp

/-! ## Claim theorems -/

/-- Claim C1: for two scene objects sharing one MeshData block, both with
scale (2.0, 2.0, 2.0), `fix_unapplied_scale` on one of them leaves both
objects with scale (1.0, 1.0, 1.0), both referencing a single shared data
block whose geometry carries exactly one baked (2.0, 2.0, 2.0) scale, with
the now-unreferenced block removed from the store (exactly one data block
remains), and reports 2 instances fixed. -/
theorem fix_unapplied_scale_two_instance_restore (n1 n2 : String) (m : MeshData)
    (hne : n1 ≠ n2) (hk : m.kind = DataKind.meshKind) :
    fix_unapplied_scale (sharedScaleStore n1 n2 m) n1 =
      (⟨[{ mkObj n1 ObjType.MESH with scale := vOne, data := some 1 },
         { mkObj n2 ObjType.MESH with scale := vOne, data := some 1 }],
        [(1, { m with baked := m.baked ++ [BakeOp.scaleBy (uniform 2000)] })], 2,
        [], [], [], [n1, n2]⟩, 2) := by
  have h1 : (n1 == n2) = false := beq_eq_false_iff_ne.mpr hne
  have h2 : (n2 == n1) = false := beq_eq_false_iff_ne.mpr (Ne.symm hne)
  simp [fix_unapplied_scale, sharedScaleStore, mkObj, objLookup, scaleWithinTol,
    scaleUnapplied, geometryTypes, applyScaleStep, restoreInstancing, relinkStep,
    removeOrphanStep, removableKind, dataUsers, meshLookup, updObj, updMesh,
    List.find?, h1, h2, hne, Ne.symm hne, hk, uniform, oneF, tol, vOne]

/-- Witness for C1 at the concrete names A and B and a concrete mesh. -/
theorem fix_unapplied_scale_two_instance_restore_witness :
    ("A" ≠ "B" ∧ (mkMesh "M").kind = DataKind.meshKind) ∧
    fix_unapplied_scale (sharedScaleStore "A" "B" (mkMesh "M")) "A" =
      (⟨[{ mkObj "A" ObjType.MESH with scale := vOne, data := some 1 },
         { mkObj "B" ObjType.MESH with scale := vOne, data := some 1 }],
        [(1, { mkMesh "M" with baked := (mkMesh "M").baked ++
          [BakeOp.scaleBy (uniform 2000)] })], 2,
        [], [], [], ["A", "B"]⟩, 2) :=
  ⟨⟨by decide, by decide⟩,
   fix_unapplied_scale_two_instance_restore "A" "B" (mkMesh "M") (by decide) (by decide)⟩

/-- Claim C2: for a parent chain forming the cycle a → b → c → a, the
parent-loop detector returns exactly the minimal repeated segment — the
four-element list from the first occurrence of the repeated name through
the repeat, inclusive — from every start inside the cycle, never a longer
prefix of the walked path. -/
theorem detect_parent_loops_minimal_cycle (a b c : String)
    (hab : a ≠ b) (hac : a ≠ c) (hbc : b ≠ c) :
    detect_parent_loops (cycleStore a b c) a = some [a, b, c, a] ∧
    detect_parent_loops (cycleStore a b c) b = some [b, c, a, b] ∧
    detect_parent_loops (cycleStore a b c) c = some [c, a, b, c] := by
  have h1 : (a == b) = false := beq_eq_false_iff_ne.mpr hab
  have h2 : (b == a) = false := beq_eq_false_iff_ne.mpr (Ne.symm hab)
  have h3 : (a == c) = false := beq_eq_false_iff_ne.mpr hac
  have h4 : (c == a) = false := beq_eq_false_iff_ne.mpr (Ne.symm hac)
  have h5 : (b == c) = false := beq_eq_false_iff_ne.mpr hbc
  have h6 : (c == b) = false := beq_eq_false_iff_ne.mpr (Ne.symm hbc)
  refine ⟨?_, ?_, ?_⟩ <;>
  simp [detect_parent_loops, cycleStore, detect_parent_loops_aux, objLookup, mkObj,
    pyIndex, h1, h2, h3, h4, h5, h6, hab, hac, hbc, Ne.symm hab, Ne.symm hac, Ne.symm hbc,
    List.find?, List.findIdx_cons]

/-- Witness for C2 at the concrete names A, B and C. -/
theorem detect_parent_loops_minimal_cycle_witness :
    ("A" ≠ "B" ∧ "A" ≠ "C" ∧ "B" ≠ "C") ∧
    (detect_parent_loops (cycleStore "A" "B" "C") "A" = some ["A", "B", "C", "A"] ∧
     detect_parent_loops (cycleStore "A" "B" "C") "B" = some ["B", "C", "A", "B"] ∧
     detect_parent_loops (cycleStore "A" "B" "C") "C" = some ["C", "A", "B", "C"]) :=
  ⟨⟨by decide, by decide, by decide⟩,
   detect_parent_loops_minimal_cycle "A" "B" "C" (by decide) (by decide) (by decide)⟩

/-- Claim C3, counterexample: the excluded object WGT-ctrl (matching the
pattern WGT-) shares its mesh data with the non-excluded object Body; after
`auto_fix_all` the excluded object has been mutated — its scale was baked
to (1.0, 1.0, 1.0) and its data reference re-linked — refuting "no fix
operation mutates that object or its data in any way". -/
theorem excluded_object_rebaked_counterexample :
    is_excluded exclusionProcessor.exclusion_patterns "WGT-ctrl" = true ∧
    (objLookup (auto_fix_all exclusionProcessor exclusionScaleStore).1 "WGT-ctrl").map
      (fun o => (o.scale, o.data)) = some (vOne, some 1) ∧
    objLookup exclusionScaleStore "WGT-ctrl" ≠
      objLookup (auto_fix_all exclusionProcessor exclusionScaleStore).1 "WGT-ctrl" := by
  decide

/-- Claim C3, amended: every Finding a scan produces names a non-excluded
object, and every fix `auto_fix_all` dispatches (each event of its
execution trace) is dispatched for a non-excluded object; an excluded
object can still be mutated indirectly, when the instance-wide scale bake
of a non-excluded object sharing its data rebakes it (see the
counterexample). -/
theorem exclusion_scan_and_fix_dispatch (p : SceneProcessor) (s : Store) :
    ((scan p s).2.2).all
      (fun r => !is_excluded p.exclusion_patterns r.object_name) = true ∧
    ((auto_fix_all p s).2.2).all
      (fun e => !is_excluded p.exclusion_patterns e.objName) = true := by
  constructor
  · exact scan_foldl_not_excluded p.exclusion_patterns p.objects (s, []) rfl
  · obtain ⟨u1, h1, hp1⟩ := trace_extend_foldl
      (fun e => !is_excluded p.exclusion_patterns e.objName) phase1Obj
      (p.objects.filter (fun n =>
        objExists (initAutoFix s).store n && !(is_excluded p.exclusion_patterns n)))
      (fun st x hx =>
        (phase1Obj_trace st x).imp (fun u hq =>
          ⟨hq.1, all_imp hq.2 (fun e he => by
            rw [Bool.and_eq_true] at he
            rw [eq_of_beq he.2]
            exact (Bool.and_eq_true _ _ |>.mp (List.mem_filter.mp hx).2).2)⟩))
      (initAutoFix s)
    obtain ⟨u2, h2, hp2⟩ := trace_extend_foldl
      (fun e => !is_excluded p.exclusion_patterns e.objName)
      (phase2Obj p.exclusion_patterns) p.objects
      (fun st x _ => phase2Obj_trace_excl p.exclusion_patterns st x)
      (phase1 p (initAutoFix s))
    show (p.objects.foldl (phase2Obj p.exclusion_patterns)
      (phase1 p (initAutoFix s))).trace.all
        (fun e => !is_excluded p.exclusion_patterns e.objName) = true
    rw [h2]
    have hphase1 : (phase1 p (initAutoFix s)).trace = u1 := by
      show ((p.objects.filter _).foldl phase1Obj (initAutoFix s)).trace = u1
      rw [h1]
      rfl
    rw [hphase1, List.all_append, hp1, hp2]
    rfl

/-- Claim C4, counterexample: an object whose only driver has its validity
flag cleared and a variable targeting the object itself yields exactly the
one INVALID_DRIVER finding and no CIRCULAR_DRIVER finding — the `continue`
after the validity check skips the per-variable checks, so they are not
independent of it. -/
theorem invalid_driver_skips_variable_checks_counterexample :
    ((selfTargetInvalidObj "A").anim_drivers.getD []).all
      (fun fc => fc.driver.vars.any (fun v =>
        v.targets.any (fun t => t.id == some "A"))) = true ∧
    validate_drivers (invalidDriverStore "A") (selfTargetInvalidObj "A") =
      [("INVALID_DRIVER", "Invalid driver on property location", "ERROR")] ∧
    (validate_drivers (invalidDriverStore "A") (selfTargetInvalidObj "A")).countP
      (fun i => i.1 == "CIRCULAR_DRIVER") = 0 := by
  decide

/-- Claim C4, amended: driver validation reports an ERROR finding for every
driver whose validity flag is false and for every valid scripted driver
with a blank expression; and for every driver whose validity flag is TRUE,
self-referencing and null targets are each flagged per offending variable
target (the finding counts equal the offending-target counts over the
valid drivers); for a driver already reported invalid the per-variable
checks are skipped. -/
theorem validate_drivers_per_variable_checks (s : Store) (o : SceneObject)
    (fcs : List FCurve)
    (hex : objExists s o.name = true) (hd : o.anim_drivers = some fcs) :
    ((validate_drivers s o).countP (fun i => i.1 == "CIRCULAR_DRIVER") =
      (fcs.map (fun fc => if fc.driver.is_valid then
        (fc.driver.vars.map (fun v =>
          v.targets.countP (fun t => t.id == some o.name))).sum
       else 0)).sum) ∧
    ((validate_drivers s o).countP (fun i => i.1 == "MISSING_DRIVER_TARGET") =
      (fcs.map (fun fc => if fc.driver.is_valid then
        (fc.driver.vars.map (fun v =>
          v.targets.countP (fun t => t.id == none))).sum
       else 0)).sum) ∧
    (∀ fc ∈ fcs, fc.driver.is_valid = false →
      ("INVALID_DRIVER", "Invalid driver on property " ++ fc.data_path, "ERROR")
        ∈ validate_drivers s o) ∧
    (∀ fc ∈ fcs, fc.driver.is_valid = true → fc.driver.scripted = true →
      pyStrip fc.driver.expression = "" →
      ("INVALID_DRIVER", "Empty scripted expression on " ++ fc.data_path, "ERROR")
        ∈ validate_drivers s o) := by
  have hval : validate_drivers s o =
      (match detect_driver_chain s o.name with
       | some chain =>
         [("DRIVER_CHAIN", "Driver chain loop detected: " ++
           String.intercalate " → " chain, "ERROR")]
       | none => []) ++ fcs.flatMap (driverFCurveIssues o.name) := by
    unfold validate_drivers
    rw [hex, hd]
    rfl
  have hchain0 : ∀ (p : String → Bool), p "DRIVER_CHAIN" = false →
      (match detect_driver_chain s o.name with
       | some chain =>
         [("DRIVER_CHAIN", "Driver chain loop detected: " ++
           String.intercalate " → " chain, "ERROR")]
       | none => ([] : List Issue)).countP (fun (i : Issue) => p i.1) = 0 := by
    intro p hp
    cases detect_driver_chain s o.name <;> simp [hp]
  refine ⟨?_, ?_, ?_, ?_⟩
  · rw [hval, List.countP_append, List.countP_flatMap]
    rw [hchain0 (fun x => x == "CIRCULAR_DRIVER") (by decide)]
    simp only [Function.comp_def, driverFCurveIssues_circ, Nat.zero_add]
  · rw [hval, List.countP_append, List.countP_flatMap]
    rw [hchain0 (fun x => x == "MISSING_DRIVER_TARGET") (by decide)]
    simp only [Function.comp_def, driverFCurveIssues_missing, Nat.zero_add]
  · intro fc hfc hv
    rw [hval]
    refine List.mem_append_right _ (List.mem_flatMap.mpr ⟨fc, hfc, ?_⟩)
    unfold driverFCurveIssues
    rw [hv]
    simp
  · intro fc hfc hv hs hstrip
    rw [hval]
    refine List.mem_append_right _ (List.mem_flatMap.mpr ⟨fc, hfc, ?_⟩)
    unfold driverFCurveIssues
    rw [hv]
    simp [hs, hstrip]

/-- Witness for the amended C4 on a concrete object mixing every defect:
one invalid driver with a self target (contributing no per-variable
finding) and one valid blank-scripted driver with a self target and an
unset target (contributing one of each). -/
theorem validate_drivers_per_variable_checks_witness :
    (objExists mixedDriverStore mixedDriverObj.name = true ∧
     mixedDriverObj.anim_drivers = some mixedDriverFcs) ∧
    (validate_drivers mixedDriverStore mixedDriverObj).countP
      (fun i => i.1 == "CIRCULAR_DRIVER") = 1 ∧
    (validate_drivers mixedDriverStore mixedDriverObj).countP
      (fun i => i.1 == "MISSING_DRIVER_TARGET") = 1 ∧
    ("INVALID_DRIVER", "Invalid driver on property location", "ERROR")
      ∈ validate_drivers mixedDriverStore mixedDriverObj := by
  have h := validate_drivers_per_variable_checks mixedDriverStore mixedDriverObj
    mixedDriverFcs (by decide) rfl
  refine ⟨⟨by decide, rfl⟩, ?_, ?_, ?_⟩
  · rw [h.1]; decide
  · rw [h.2.1]; decide
  · exact h.2.2.1 (invalidSelfFCurve "A") (by decide) rfl

/-- Claim C5: with a's driver targeting b, b's targeting a, and a second
driver on a targeting the bystander c, `fix_driver_chains` on a removes
exactly the driver on a that references b (the c-targeting driver on a and
b's driver survive unchanged), and afterwards driver-chain detection from
either a or b finds no cycle. -/
theorem fix_driver_chains_two_object_break (a b c : String)
    (hab : a ≠ b) (hac : a ≠ c) (hbc : b ≠ c) :
    fix_driver_chains (chainStore a b c) a =
      (⟨[{ mkObj a ObjType.EMPTY_OBJ with
             anim_drivers := some [targetFCurve "rotation" c] },
         { mkObj b ObjType.EMPTY_OBJ with
             anim_drivers := some [targetFCurve "location" a] },
         mkObj c ObjType.EMPTY_OBJ],
        [], 0, [], [], [], []⟩, true) ∧
    detect_driver_chain (fix_driver_chains (chainStore a b c) a).1 a = none ∧
    detect_driver_chain (fix_driver_chains (chainStore a b c) a).1 b = none := by
  have h1 : (a == b) = false := beq_eq_false_iff_ne.mpr hab
  have h2 : (b == a) = false := beq_eq_false_iff_ne.mpr (Ne.symm hab)
  have h3 : (a == c) = false := beq_eq_false_iff_ne.mpr hac
  have h4 : (c == a) = false := beq_eq_false_iff_ne.mpr (Ne.symm hac)
  have h5 : (b == c) = false := beq_eq_false_iff_ne.mpr hbc
  have h6 : (c == b) = false := beq_eq_false_iff_ne.mpr (Ne.symm hbc)
  refine ⟨?_, ?_, ?_⟩ <;>
  simp [fix_driver_chains, chainStore, mkObj, objLookup, detect_driver_chain,
    detect_driver_chain_aux, driverTargetsOf, targetFCurve, chainDriverPred, pyIndex,
    updObj, List.find?, List.findIdx_cons,
    h1, h2, h3, h4, h5, h6, hab, hac, hbc, Ne.symm hab, Ne.symm hac, Ne.symm hbc]

/-- Witness for C5 at the concrete names A, B and C. -/
theorem fix_driver_chains_two_object_break_witness :
    ("A" ≠ "B" ∧ "A" ≠ "C" ∧ "B" ≠ "C") ∧
    (fix_driver_chains (chainStore "A" "B" "C") "A" =
      (⟨[{ mkObj "A" ObjType.EMPTY_OBJ with
             anim_drivers := some [targetFCurve "rotation" "C"] },
         { mkObj "B" ObjType.EMPTY_OBJ with
             anim_drivers := some [targetFCurve "location" "A"] },
         mkObj "C" ObjType.EMPTY_OBJ],
        [], 0, [], [], [], []⟩, true) ∧
     detect_driver_chain (fix_driver_chains (chainStore "A" "B" "C") "A").1 "A" = none ∧
     detect_driver_chain (fix_driver_chains (chainStore "A" "B" "C") "A").1 "B" = none) :=
  ⟨⟨by decide, by decide, by decide⟩,
   fix_driver_chains_two_object_break "A" "B" "C" (by decide) (by decide) (by decide)⟩

/-- Claim C6: running `scan` a second time, from the state the first run
left behind and with no intervening store mutation, yields a report list
identical in content and order. -/
theorem scan_idempotent (p : SceneProcessor) (s : Store) :
    (scan (scan p s).1 (scan p s).2.1).2.2 = (scan p s).2.2 := by
  rw [show (scan p s).2.1 = s from scan_foldl_fst p.exclusion_patterns p.objects (s, [])]
  rfl

/-- Claim C7: repairing the ERROR-broken materials of two different objects
in one `auto_fix_all` call creates exactly one marker material in the
store; both repaired slots reference it, and a further lookup finds and
reuses it (the store is returned unchanged). -/
theorem marker_material_single_instance :
    ((auto_fix_all markerProcessor markerScenarioStore).1.materials.countP
      (fun m => m.name == markerName)) = 1 ∧
    (objLookup (auto_fix_all markerProcessor markerScenarioStore).1 "ObjA").map
      (fun o => o.material_slots) = some [some markerName] ∧
    (objLookup (auto_fix_all markerProcessor markerScenarioStore).1 "ObjB").map
      (fun o => o.material_slots) = some [some markerName] ∧
    (auto_fix_all markerProcessor markerScenarioStore).2.1.materials_rebuilt = 2 ∧
    (get_or_create_broken_marker_material
      (auto_fix_all markerProcessor markerScenarioStore).1).1 =
      (auto_fix_all markerProcessor markerScenarioStore).1 := by
  decide

/-- Claim C8: in every `auto_fix_all` call the execution trace splits into
a prefix of transform-phase fixes followed by object-level fixes only — no
object-level fix is dispatched before the store-wide transform phase has
completed. -/
theorem transform_phase_before_object_phase (p : SceneProcessor) (s : Store) :
    ∃ t1 t2, (auto_fix_all p s).2.2 = t1 ++ t2 ∧
      t1.all FixEvent.isTransformPhase = true ∧
      t2.all FixEvent.isObjectLevel = true := by
  obtain ⟨u1, h1, hp1⟩ := trace_extend_foldl FixEvent.isTransformPhase phase1Obj
    (p.objects.filter (fun n =>
      objExists (initAutoFix s).store n && !(is_excluded p.exclusion_patterns n)))
    (fun st x _ =>
      (phase1Obj_trace st x).imp (fun u hq =>
        ⟨hq.1, all_imp hq.2 (fun e he => (Bool.and_eq_true _ _ |>.mp he).1)⟩))
    (initAutoFix s)
  obtain ⟨u2, h2, hp2⟩ := trace_extend_foldl FixEvent.isObjectLevel
    (phase2Obj p.exclusion_patterns) p.objects
    (fun st x _ =>
      (phase2Obj_trace p.exclusion_patterns st x).imp (fun u hq =>
        ⟨hq.1, all_imp hq.2 (fun e he => (Bool.and_eq_true _ _ |>.mp he).1)⟩))
    (phase1 p (initAutoFix s))
  refine ⟨u1, u2, ?_, hp1, hp2⟩
  show (p.objects.foldl (phase2Obj p.exclusion_patterns)
    (phase1 p (initAutoFix s))).trace = u1 ++ u2
  rw [h2]
  have hphase1 : (phase1 p (initAutoFix s)).trace = u1 := by
    show ((p.objects.filter _).foldl phase1Obj (initAutoFix s)).trace = u1
    rw [h1]
    rfl
  rw [hphase1]

/-- Claim C9: `scan` is read-only over the scene store — it returns the
store it was given unchanged, and its only effect on the processor is
replacing the report list with the freshly built one. -/
theorem scan_read_only (p : SceneProcessor) (s : Store) :
    (scan p s).2.1 = s ∧
    (scan p s).1 = ⟨p.objects, p.exclusion_patterns, (scan p s).2.2⟩ :=
  ⟨scan_foldl_fst p.exclusion_patterns p.objects (s, []), rfl⟩

/-- Claim C10: a non-empty whitespace-only string in the exclusion pattern
list passed directly to the processor strips to the empty string, which is
a prefix of every name, so every object is excluded and a scan of any
object set over any store produces zero findings. -/
theorem whitespace_exclusion_pattern_excludes_all (pats : List String) (p : String)
    (hp : p ∈ pats) (hne : p ≠ "") (hws : pyStrip p = "") :
    (∀ n, is_excluded pats n = true) ∧
    (∀ (objs : List String) (s : Store) (rep : List ValidationReport),
      (scan ⟨objs, pats, rep⟩ s).2.2 = []) := by
  have hall : ∀ n, is_excluded pats n = true := by
    intro n
    refine List.any_eq_true.mpr ⟨p, hp, ?_⟩
    simp [hne, pyStartsWith, hws, List.isPrefixOf]
  refine ⟨hall, fun objs s rep => ?_⟩
  show (objs.foldl (scanStep pats) (s, [])).2 = []
  rw [excluded_all_foldl pats hall]

/-- Witness for C10: with the single pattern " " every name is excluded,
and a store whose unfiltered scan is non-empty scans to zero findings. -/
theorem whitespace_exclusion_pattern_excludes_all_witness :
    (" " ∈ ([" "] : List String) ∧ " " ≠ "" ∧ pyStrip " " = "") ∧
    is_excluded [" "] "Cube" = true ∧
    (scan ⟨["Cube"], [" "], []⟩ cubeStore).2.2 = [] ∧
    (scan ⟨["Cube"], [], []⟩ cubeStore).2.2 ≠ [] := by
  have h := whitespace_exclusion_pattern_excludes_all [" "] " "
    (by decide) (by decide) (by decide)
  exact ⟨⟨by decide, by decide, by decide⟩, h.1 "Cube", h.2 ["Cube"] cubeStore [], by decide⟩

end Apex
